import Mathlib

/-!
# MPAudioRenderer: sample-rate converter stage

A shallow embedding of `CSampleRateConverter`
(`DirectShowFilters/MPAudioRenderer/source/SampleRateConverterFilter.cpp`).

* The stage's C++ members are the fields of `CSampleRateConverter`.
* Everything the stage calls but does not implement (the downstream sink, the
  buffer allocator, libsamplerate, the global rate table) is a field of `Env`.
  Each collaborator answers as a function of the list of external calls made so
  far, so stateful collaborators are covered.
* Every external call is appended to a log of `Event`s; the log is how
  statements such as "the downstream is not called" are expressed.
* Integers are unbounded (`Nat`, `Int`); the one unsigned 32-bit product of the
  source (`nAvgBytesPerSec`) is reduced modulo `2 ^ 32`.  The `double` rate
  ratio is kept as the exact rational quotient it approximates.
-/

namespace MPAudioRenderer

/-! ## Result codes -/

abbrev HRESULT := Int

def S_OK : HRESULT := 0

def S_FALSE : HRESULT := 1

/-- The value 0x8004022A read as a signed 32-bit integer. -/
def VFW_E_TYPE_NOT_ACCEPTED : HRESULT := -2147220950

def SUCCEEDED (hr : HRESULT) : Bool := decide (0 ≤ hr)

def FAILED (hr : HRESULT) : Bool := decide (hr < 0)

/-- The value 0xFFFFFFFF; compared with an `int` it is the integer -1. -/
def INFINITE : Int := -1

/-- One second in 100 ns reference-time units (`LONGLONG`). -/
def UNITS : Int := 10000000

/-- Ways in which the C++ code has no defined result. `outOfFuel` is not a
behaviour of the code: it marks a loop of the model that was cut off. -/
inductive Fault where
  | outOfBounds
  | nullDeref
  | divByZero
  | outOfFuel
  deriving DecidableEq, Repr

/-! ## Formats and buffers -/

structure WAVEFORMATEX where
  wFormatTag : Nat
  nChannels : Nat
  nSamplesPerSec : Nat
  nAvgBytesPerSec : Nat
  nBlockAlign : Nat
  wBitsPerSample : Nat
  cbSize : Nat
  deriving DecidableEq, Repr

/-- The extensible wave format. `SubFormat` is the GUID read as a 128-bit number. -/
structure WAVEFORMATEXTENSIBLE where
  Format : WAVEFORMATEX
  wValidBitsPerSample : Nat
  dwChannelMask : Nat
  SubFormat : Nat
  deriving DecidableEq, Repr

/-- The GUID 00000003-0000-0010-8000-00aa00389b71. -/
def KSDATAFORMAT_SUBTYPE_IEEE_FLOAT : Nat := 0x0000000300000010800000aa00389b71

/-- An output buffer as the stage sees it: capacity (`GetSize`), fill offset
(`GetActualDataLength`) and the start time it was tagged with. -/
structure IMediaSample where
  size : Int
  actualDataLength : Int
  timeStart : Int
  deriving DecidableEq, Repr

/-- An input buffer as `PutSample` sees it: the format attached to it if there
is one (`GetMediaType` succeeds with a non-null type), whether it is marked as a
discontinuity, its length (`GetActualDataLength`), its start time if it has one
(`GetTime`), and the result and address of `GetPointer` (the address is
asserted non-null). -/
structure InputSample where
  mediaType : Option WAVEFORMATEXTENSIBLE
  isDiscontinuity : Bool
  actualDataLength : Int
  timeStart : Option Int
  pointerResult : HRESULT
  pData : Int
  deriving DecidableEq, Repr

/-- What `src_process` hands back: its return code and the two counters it
writes into `SRC_DATA`. -/
structure SRC_RESULT where
  ret : Int
  input_frames_used : Int
  output_frames_gen : Int
  deriving DecidableEq, Repr

/-- External calls made by the stage, in the order they are made. The downstream's
`PutSample` appears twice: `sinkPutSample` for an output buffer of the stage,
`sinkForward` for an input buffer handed on unchanged in pass-through mode. -/
inductive Event where
  | sinkNegotiate (pwfx : WAVEFORMATEXTENSIBLE) (nApplyChangesDepth : Int)
  | sinkPutSample (sample : IMediaSample)
  | sinkForward (sample : InputSample)
  | requestBuffer (rtStart : Int)
  | srcProcess (state : Option Nat) (pData : Int) (input_frames output_frames : Int)
  | srcReset (state : Option Nat)
  | srcNew (quality : Int) (channels : Nat)
  | srcDelete (state : Nat)
  deriving DecidableEq, Repr

structure AudioRendererSettings where
  m_nResamplingQuality : Int
  deriving DecidableEq, Repr

/-- The collaborators of the stage. Each answers as a function of the calls
made so far (first argument). `gAllowedSampleRates` is the external table
`unsigned int gAllowedSampleRates[7]`. -/
structure Env where
  gAllowedSampleRates : List Nat
  NextSink_NegotiateFormat : List Event → WAVEFORMATEXTENSIBLE → Int → HRESULT
  NextSink_PutSample : List Event → IMediaSample → HRESULT
  NextSink_Forward : List Event → InputSample → HRESULT
  GetBuffer : List Event → Int → HRESULT × IMediaSample
  GetPointer : List Event → HRESULT
  src_new : List Event → Int → Nat → Option Nat × Int
  src_reset : List Event → Option Nat → Int
  src_process : List Event → Option Nat → Int → Int → ℚ → SRC_RESULT

/-- The stage: the members of `CBaseAudioSink` the converter uses, then its own.
`m_pNextSink` is `true` when the pointer is non-null. -/
structure CSampleRateConverter where
  m_pNextSink : Bool
  m_pInputFormat : Option WAVEFORMATEXTENSIBLE
  m_pOutputFormat : Option WAVEFORMATEXTENSIBLE
  m_pNextOutSample : Option IMediaSample
  m_bDiscontinuity : Bool
  m_bPassThrough : Bool
  m_rtInSampleTime : Int
  m_pSettings : AudioRendererSettings
  m_pSrcState : Option Nat
  m_dSampleRateRation : ℚ
  m_nFrameSize : Int
  m_nBitsPerSample : Int
  m_nBytesPerSample : Int
  deriving DecidableEq

/-- The constructor's initialiser list: it sets five members and leaves the rest
(the base-class part and the members it does not mention) as it finds them in
`mem`. -/
def CSampleRateConverter.construct (mem : CSampleRateConverter)
    (pSettings : AudioRendererSettings) : CSampleRateConverter :=
  { mem with
    m_bPassThrough := false
    m_rtInSampleTime := 0
    m_pSettings := pSettings
    m_pSrcState := none
    m_dSampleRateRation := 1 }

/-! ## Helpers of `CBaseAudioSink` -/

/-- Modelled from the spec: `CBaseAudioSink::FormatsEqual` is not part of the
sources at hand. The spec speaks of the candidate being "equal to the currently
active input format"; a null pointer equals only a null pointer. -/
def FormatsEqual (pwfx1 pwfx2 : Option WAVEFORMATEXTENSIBLE) : Bool :=
  decide (pwfx1 = pwfx2)

/-- Modelled from the spec: `CBaseAudioSink::SetInputFormat` is not part of the
sources at hand; the stage "adopts" the format as its active input format. -/
def SetInputFormat (s : CSampleRateConverter) (pwfx : WAVEFORMATEXTENSIBLE) :
    CSampleRateConverter :=
  { s with m_pInputFormat := some pwfx }

/-- Modelled from the spec: `CBaseAudioSink::SetOutputFormat` is not part of the
sources at hand; the stage "adopts" the format as its active output format. -/
def SetOutputFormat (s : CSampleRateConverter) (pwfx : WAVEFORMATEXTENSIBLE) :
    CSampleRateConverter :=
  { s with m_pOutputFormat := some pwfx }

/-- Modelled from the spec: `CBaseAudioSink::OutputNextSample` is not part of the
sources at hand. The pending output buffer is emitted downstream and the pending
reference is cleared; the result is the downstream's. -/
def OutputNextSample (env : Env) (s : CSampleRateConverter) (log : List Event) :
    HRESULT × CSampleRateConverter × List Event :=
  match s.m_pNextOutSample with
  | none => (S_OK, s, log)
  | some sample =>
    (env.NextSink_PutSample log sample,
     { s with m_pNextOutSample := none },
     log ++ [Event.sinkPutSample sample])

/-- Modelled from the spec: `CBaseAudioSink::RequestNextOutBuffer` is not part of
the sources at hand. A new buffer is requested from the allocator, tagged with
the given timestamp; on failure no pending buffer is set. -/
def RequestNextOutBuffer (env : Env) (s : CSampleRateConverter) (log : List Event)
    (rtStart : Int) : HRESULT × CSampleRateConverter × List Event :=
  let r := env.GetBuffer log rtStart
  if FAILED r.1 then
    (r.1, s, log ++ [Event.requestBuffer rtStart])
  else
    (r.1,
     { s with m_pNextOutSample := some { r.2 with timeStart := rtStart } },
     log ++ [Event.requestBuffer rtStart])

/-! ## Negotiation -/

/-- The constant `sizeof(gAllowedSampleRates) / sizeof(int)`. -/
def sampleRateCount : Nat := 7

/-- The first loop of `NegotiateFormat`: look for the input rate in the table.
`remaining` is `sampleRateCount - i`, the number of iterations the guard
`i < sampleRateCount` still allows. The result is `(startPoint, foundSampleRate)`. -/
def searchStartPoint (tbl : List Nat) (nSamplesPerSec : Nat) :
    Nat → Nat → Except Fault (Nat × Bool)
  | 0, _ => .ok (0, false)
  | remaining + 1, i =>
    match tbl[i]? with
    | none => .error Fault.outOfBounds
    | some rate =>
      if rate = nSamplesPerSec then .ok (i + 1, true)
      else searchStartPoint tbl nSamplesPerSec remaining (i + 1)

/-- The second loop of `NegotiateFormat`: probe the downstream with table rates.
`remaining` is `sampleRateCount - sampleRatesTested`; both branches of the body
increment `sampleRatesTested` exactly once. The arguments after it are the loop
variables `i`, `hr`, `pOutWfx` and the call log. -/
def probeLoop (env : Env) (pwfx : WAVEFORMATEXTENSIBLE) (nApplyChangesDepth : Int) :
    Nat → Nat → HRESULT → WAVEFORMATEXTENSIBLE → List Event →
    Except Fault (HRESULT × WAVEFORMATEXTENSIBLE × List Event)
  | 0, _, hr, pOutWfx, log => .ok (hr, pOutWfx, log)
  | remaining + 1, i, hr, pOutWfx, log =>
    if FAILED hr && decide (pOutWfx.Format.nSamplesPerSec = 0) then
      if pOutWfx.Format.nSamplesPerSec = pwfx.Format.nSamplesPerSec then
        -- skip if same as source: sampleRatesTested++, continue (then i++)
        probeLoop env pwfx nApplyChangesDepth remaining (i + 1) hr pOutWfx log
      else
        match env.gAllowedSampleRates[i]? with
        | none => .error Fault.outOfBounds
        | some rate =>
          let pOut1 : WAVEFORMATEXTENSIBLE :=
            { pOutWfx with
              Format :=
                { pOutWfx.Format with
                  nSamplesPerSec := rate
                  nAvgBytesPerSec := (rate * pOutWfx.Format.nBlockAlign) % 2 ^ 32 } }
          let hr1 := env.NextSink_NegotiateFormat log pOut1 nApplyChangesDepth
          let log1 := log ++ [Event.sinkNegotiate pOut1 nApplyChangesDepth]
          let pOut2 : WAVEFORMATEXTENSIBLE :=
            if FAILED hr1 then
              { pOut1 with Format := { pOut1.Format with nSamplesPerSec := 0 } }
            else pOut1
          -- Search from the lower end: i = 0, then the loop's i++
          let i1 := if i = sampleRateCount - 1 then 0 else i
          probeLoop env pwfx nApplyChangesDepth remaining (i1 + 1) hr1 pOut2 log1
    else .ok (hr, pOutWfx, log)

/-- The method `CSampleRateConverter::SetupConversion`. -/
def SetupConversion (env : Env) (s : CSampleRateConverter) (log : List Event) :
    Except Fault (HRESULT × CSampleRateConverter × List Event) :=
  match s.m_pInputFormat, s.m_pOutputFormat with
  | some inFmt, some outFmt =>
    let s1 : CSampleRateConverter :=
      { s with
        m_nBitsPerSample := 32
        m_nFrameSize := inFmt.Format.nBlockAlign
        m_nBytesPerSample := inFmt.Format.wBitsPerSample / 8
        m_dSampleRateRation :=
          (outFmt.Format.nSamplesPerSec : ℚ) / (inFmt.Format.nSamplesPerSec : ℚ) }
    -- if (m_pSrcState) m_pSrcState = src_delete(m_pSrcState);
    let log1 :=
      match s1.m_pSrcState with
      | some h => log ++ [Event.srcDelete h]
      | none => log
    let r := env.src_new log1 s1.m_pSettings.m_nResamplingQuality inFmt.Format.nChannels
    let s2 : CSampleRateConverter := { s1 with m_pSrcState := r.1 }
    let log2 := log1 ++ [Event.srcNew s1.m_pSettings.m_nResamplingQuality inFmt.Format.nChannels]
    if r.2 ≠ 0 then .ok (S_FALSE, s2, log2) else .ok (S_OK, s2, log2)
  | _, _ => .error Fault.nullDeref

/-- The depth forwarded to the downstream:
`if (nApplyChangesDepth != INFINITE && nApplyChangesDepth > 0) nApplyChangesDepth--`. -/
def forwardedDepth (nApplyChangesDepth : Int) : Int :=
  if nApplyChangesDepth ≠ INFINITE ∧ nApplyChangesDepth > 0 then nApplyChangesDepth - 1
  else nApplyChangesDepth

/-- The method `CSampleRateConverter::NegotiateFormat`. The result is the
returned code, the stage afterwards and the extended call log. -/
def NegotiateFormat (env : Env) (s : CSampleRateConverter) (log : List Event)
    (pwfx : Option WAVEFORMATEXTENSIBLE) (nApplyChangesDepth : Int) :
    Except Fault (HRESULT × CSampleRateConverter × List Event) :=
  match pwfx with
  | none => .ok (VFW_E_TYPE_NOT_ACCEPTED, s, log)
  | some wfx =>
    if FormatsEqual (some wfx) s.m_pInputFormat then .ok (S_OK, s, log)
    else if !s.m_pNextSink then .ok (VFW_E_TYPE_NOT_ACCEPTED, s, log)
    else
      let bApplyChanges : Bool := decide (nApplyChangesDepth ≠ 0)
      let depth := forwardedDepth nApplyChangesDepth
      -- try passthrough
      let hr := env.NextSink_NegotiateFormat log wfx depth
      let log1 := log ++ [Event.sinkNegotiate wfx depth]
      if SUCCEEDED hr then
        if bApplyChanges then
          .ok (hr, SetOutputFormat (SetInputFormat { s with m_bPassThrough := true } wfx) wfx, log1)
        else .ok (hr, s, log1)
      else if wfx.SubFormat ≠ KSDATAFORMAT_SUBTYPE_IEEE_FLOAT then
        .ok (VFW_E_TYPE_NOT_ACCEPTED, s, log1)
      else
        let pOutWfx : WAVEFORMATEXTENSIBLE :=
          { wfx with Format := { wfx.Format with nSamplesPerSec := 0 } }
        match searchStartPoint env.gAllowedSampleRates wfx.Format.nSamplesPerSec
            sampleRateCount 0 with
        | .error f => .error f
        | .ok (startPoint, _) =>
          match probeLoop env wfx depth sampleRateCount startPoint
              VFW_E_TYPE_NOT_ACCEPTED pOutWfx log1 with
          | .error f => .error f
          | .ok (hr2, pOut, log2) =>
            if FAILED hr2 then .ok (hr2, s, log2)
            else if bApplyChanges then
              match SetupConversion env
                  (SetOutputFormat (SetInputFormat { s with m_bPassThrough := false } wfx) pOut)
                  log2 with
              | .error f => .error f
              | .ok (_, s3, log3) => .ok (S_OK, s3, log3)
            else .ok (S_OK, s, log2)

/-! ## Conversion -/

/-- The flush branch of `ProcessData` (`pData == NULL`): emit the pending buffer
if there is one, write 0 through `pcbDataProcessed` if it is non-null, reset the
resampler. -/
def ProcessDataFlush (env : Env) (s : CSampleRateConverter) (log : List Event)
    (pcbDataProcessed : Option Int) :
    HRESULT × Option Int × CSampleRateConverter × List Event :=
  let r : HRESULT × CSampleRateConverter × List Event :=
    if s.m_pNextOutSample.isSome then OutputNextSample env s log else (S_OK, s, log)
  let pcb1 : Option Int := pcbDataProcessed.map (fun _ => 0)
  let error := env.src_reset r.2.2 r.2.1.m_pSrcState
  let log2 := r.2.2 ++ [Event.srcReset r.2.1.m_pSrcState]
  if error ≠ 0 then (S_FALSE, pcb1, r.2.1, log2) else (r.1, pcb1, r.2.1, log2)

/-- What the loop `while (cbData)` of `ProcessData` carries from one iteration
to the next: the stage, the call log and the locals `hr`, `pData`, `cbData` and
`bytesOutput`. -/
structure LoopVars where
  self : CSampleRateConverter
  log : List Event
  hr : HRESULT
  pData : Int
  cbData : Int
  bytesOutput : Int

/-- How one run of the loop body ends: at its closing brace (`next`, with the
variables for the following test of `cbData`) or in one of its two `return`
statements (`done`, with the returned code, the value behind `pcbDataProcessed`,
the stage and the call log). -/
inductive BodyResult where
  | next (v : LoopVars)
  | done (hr : HRESULT) (cbDataProcessed : Option Int) (s : CSampleRateConverter)
      (log : List Event)

/-- One run of the body of the loop `while (cbData)` of `ProcessData`.
`pcbDataProcessed` is the value behind the pointer (`none` for a null pointer). -/
def ProcessDataBody (env : Env) (v : LoopVars) (pcbDataProcessed : Option Int) :
    Except Fault BodyResult :=
  -- If there is not enough space in output sample, flush it
  let r1 : HRESULT × CSampleRateConverter × List Event :=
    match v.self.m_pNextOutSample with
    | some sample =>
      if sample.actualDataLength + v.self.m_nFrameSize > sample.size then
        OutputNextSample env v.self v.log
      else (v.hr, v.self, v.log)
    | none => (v.hr, v.self, v.log)
  -- try to get an output buffer if none available
  let r2 : HRESULT × CSampleRateConverter × List Event :=
    if r1.2.1.m_pNextOutSample.isNone then
      RequestNextOutBuffer env r1.2.1 r1.2.2 r1.2.1.m_rtInSampleTime
    else r1
  if r1.2.1.m_pNextOutSample.isNone && FAILED r2.1 then
    -- we can't realy process the data, lie about it!
    .ok (BodyResult.done r2.1 (pcbDataProcessed.map (fun _ => v.bytesOutput + v.cbData))
      r2.2.1 r2.2.2)
  else
    match r2.2.1.m_pNextOutSample with
    | none => .error Fault.nullDeref
    | some sample =>
      let s2 := r2.2.1
      let log2 := r2.2.2
      let nOffset := sample.actualDataLength
      let nSize := sample.size
      let hr3 := env.GetPointer log2
      if FAILED hr3 then .ok (BodyResult.done hr3 pcbDataProcessed s2 log2)
      else if s2.m_nFrameSize = 0 then .error Fault.divByZero
      else
        let input_frames := Int.tdiv v.cbData s2.m_nFrameSize
        let output_frames := Int.tdiv (nSize - nOffset) s2.m_nFrameSize
        let data := env.src_process log2 s2.m_pSrcState input_frames output_frames
          s2.m_dSampleRateRation
        let log3 := log2 ++
          [Event.srcProcess s2.m_pSrcState v.pData input_frames output_frames]
        let pData1 := v.pData + data.input_frames_used * s2.m_nFrameSize
        let bytesOutput1 := v.bytesOutput + data.output_frames_gen * s2.m_nFrameSize
        let cbData1 := v.cbData - data.input_frames_used * s2.m_nFrameSize
        let nOffset1 := nOffset + data.output_frames_gen * s2.m_nFrameSize
        let s3 : CSampleRateConverter :=
          { s2 with m_pNextOutSample := some { sample with actualDataLength := nOffset1 } }
        let r4 : HRESULT × CSampleRateConverter × List Event :=
          if nOffset1 + s2.m_nFrameSize > nSize then OutputNextSample env s3 log3
          else (hr3, s3, log3)
        match r4.2.1.m_pOutputFormat with
        | none => .error Fault.nullDeref
        | some outFmt =>
          if outFmt.Format.nAvgBytesPerSec = 0 then .error Fault.divByZero
          else
            .ok (BodyResult.next
              { self :=
                  { r4.2.1 with
                    m_rtInSampleTime := r4.2.1.m_rtInSampleTime +
                      Int.tdiv (data.output_frames_gen * s2.m_nFrameSize * UNITS)
                        (outFmt.Format.nAvgBytesPerSec : Int) }
                log := r4.2.2
                hr := hr3
                pData := pData1
                cbData := cbData1
                bytesOutput := bytesOutput1 })

/-- The loop `while (cbData)` of `ProcessData` with what follows it. The source
loop has no bound of its own; the first argument bounds the number of
iterations of the model, and `Fault.outOfFuel` is the result when the bound is
reached with input left. -/
def ProcessDataLoop (env : Env) :
    Nat → LoopVars → Option Int →
    Except Fault (HRESULT × Option Int × CSampleRateConverter × List Event)
  | fuel, v, pcbDataProcessed =>
    if v.cbData = 0 then
      .ok (v.hr, pcbDataProcessed.map (fun _ => v.bytesOutput), v.self, v.log)
    else
      match fuel with
      | 0 => .error Fault.outOfFuel
      | fuel + 1 =>
        match ProcessDataBody env v pcbDataProcessed with
        | .error f => .error f
        | .ok (BodyResult.done hr cbDataProcessed s log) => .ok (hr, cbDataProcessed, s, log)
        | .ok (BodyResult.next v1) => ProcessDataLoop env fuel v1 pcbDataProcessed

/-- The method `CSampleRateConverter::ProcessData`. `pData` is `none` for a null
pointer and the address of the input otherwise; `pcbDataProcessed` is `none`
for a null pointer and the value stored behind it otherwise. The result is the
returned code, the value behind `pcbDataProcessed` afterwards, the stage
afterwards and the extended call log. `fuel` bounds the iterations of the
conversion loop. -/
def ProcessData (env : Env) (fuel : Nat) (s : CSampleRateConverter) (log : List Event)
    (pData : Option Int) (cbData : Int) (pcbDataProcessed : Option Int) :
    Except Fault (HRESULT × Option Int × CSampleRateConverter × List Event) :=
  match pData with
  | none => .ok (ProcessDataFlush env s log pcbDataProcessed)
  | some p =>
    ProcessDataLoop env fuel
      { self := s, log := log, hr := S_OK, pData := p, cbData := cbData, bytesOutput := 0 }
      pcbDataProcessed

/-! ## Delivery -/

/-- The loop `while (nOffset < cbSampleData && SUCCEEDED(hr))` of `PutSample`.
`fuel` bounds the iterations of this loop and of each `ProcessData` call in it;
the arguments after it are the stage, the call log and the locals `hr` and
`nOffset`. -/
def PutSampleLoop (env : Env) (fuel : Nat) (pData cbSampleData : Int) :
    Nat → CSampleRateConverter → List Event → HRESULT → Int →
    Except Fault (HRESULT × CSampleRateConverter × List Event)
  | n, s, log, hr, nOffset =>
    if nOffset < cbSampleData ∧ SUCCEEDED hr = true then
      match n with
      | 0 => .error Fault.outOfFuel
      | n + 1 =>
        -- long cbProcessed = 0; hr = ProcessData(pData+nOffset, cbSampleData - nOffset, &cbProcessed);
        match ProcessData env fuel s log (some (pData + nOffset)) (cbSampleData - nOffset)
            (some 0) with
        | .error f => .error f
        | .ok (hr1, cbProcessed, s1, log1) =>
          PutSampleLoop env fuel pData cbSampleData n s1 log1 hr1 (nOffset + cbProcessed.getD 0)
    else .ok (hr, s, log)

/-- The part of `PutSample` after the format-change block: forward the buffer in
pass-through mode, convert it otherwise. -/
def PutSampleData (env : Env) (fuel : Nat) (s : CSampleRateConverter) (log : List Event)
    (sample : InputSample) : Except Fault (HRESULT × CSampleRateConverter × List Event) :=
  if s.m_bPassThrough then
    if s.m_pNextSink then
      .ok (env.NextSink_Forward log sample, s, log ++ [Event.sinkForward sample])
    else .ok (S_OK, s, log)
  else
    -- pSample->GetTime(&m_rtInSampleTime, &rtStop);
    let s1 : CSampleRateConverter :=
      { s with m_rtInSampleTime := sample.timeStart.getD s.m_rtInSampleTime }
    PutSampleLoop env fuel sample.pData sample.actualDataLength fuel s1 log
      sample.pointerResult 0

/-- The method `CSampleRateConverter::PutSample`; `pSample` is `none` for a null
pointer. The result is the returned code, the stage afterwards and the extended
call log. -/
def PutSample (env : Env) (fuel : Nat) (s : CSampleRateConverter) (log : List Event)
    (pSample : Option InputSample) :
    Except Fault (HRESULT × CSampleRateConverter × List Event) :=
  match pSample with
  | none => .ok (S_OK, s, log)
  | some sample =>
    let bFormatChanged : Bool :=
      match sample.mediaType with
      | some wfx => !FormatsEqual (some wfx) s.m_pInputFormat
      | none => false
    let s0 : CSampleRateConverter :=
      if sample.isDiscontinuity then { s with m_bDiscontinuity := true } else s
    if bFormatChanged then
      -- Process any remaining input
      match (if !s0.m_bPassThrough then ProcessData env fuel s0 log none 0 none
             else .ok (S_OK, none, s0, log)) with
      | .error f => .error f
      | .ok (_, _, s1, log1) =>
        match NegotiateFormat env s1 log1 sample.mediaType 1 with
        | .error f => .error f
        | .ok (hr, s2, log2) =>
          if FAILED hr then .ok (hr, s2, log2)
          else PutSampleData env fuel s2 log2 sample
    else PutSampleData env fuel s0 log sample

/-! ## Vocabulary of the statements -/

/-- The candidate output format of the probing loop: the input format with the
given rate and the recomputed 32-bit byte rate. -/
def withRate (wfx : WAVEFORMATEXTENSIBLE) (rate : Nat) : WAVEFORMATEXTENSIBLE :=
  { wfx with
    Format :=
      { wfx.Format with
        nSamplesPerSec := rate
        nAvgBytesPerSec := (rate * wfx.Format.nBlockAlign) % 2 ^ 32 } }

/-- The two formats agree in every field but the sample rate and the byte rate. -/
def SameButRate (a b : WAVEFORMATEXTENSIBLE) : Prop :=
  a = { b with
        Format :=
          { b.Format with
            nSamplesPerSec := a.Format.nSamplesPerSec
            nAvgBytesPerSec := a.Format.nAvgBytesPerSec } }

/-- The events `SetupConversion` adds to the log: the deletion of the previous
resampler, if there is one, then the creation of the new one. -/
def setupEvents (s : CSampleRateConverter) (nChannels : Nat) : List Event :=
  (match s.m_pSrcState with
    | some h => [Event.srcDelete h]
    | none => []) ++ [Event.srcNew s.m_pSettings.m_nResamplingQuality nChannels]

/-- The number of buffers emitted downstream in a stretch of the call log. -/
def emittedCount (log : List Event) : Nat :=
  log.countP (fun e => match e with
    | Event.sinkPutSample _ => true
    | _ => false)

/-! ## Concrete stages and collaborators -/

/-- A rate table: 22.05, 32, 44.1, 48, 88.2, 96 and 192 kHz. -/
def exampleRates : List Nat := [22050, 32000, 44100, 48000, 88200, 96000, 192000]

/-- Stereo 32-bit float at the given rate (frame size 8). -/
def floatStereo (rate : Nat) : WAVEFORMATEXTENSIBLE :=
  { Format :=
      { wFormatTag := 0xFFFE, nChannels := 2, nSamplesPerSec := rate,
        nAvgBytesPerSec := rate * 8, nBlockAlign := 8, wBitsPerSample := 32, cbSize := 22 }
    wValidBitsPerSample := 32
    dwChannelMask := 3
    SubFormat := KSDATAFORMAT_SUBTYPE_IEEE_FLOAT }

/-- The value 0x8007000E read as a signed 32-bit integer. -/
def E_OUTOFMEMORY : HRESULT := -2147024882

/-- A resampler of ratio 1/2: it uses as many of the offered frames as fit,
halved, into the offered capacity, and produces one frame for every two used. -/
def halvingResampler (_ : List Event) (_ : Option Nat) (input_frames output_frames : Int)
    (_ : ℚ) : SRC_RESULT :=
  { ret := 0
    input_frames_used := min input_frames (2 * output_frames)
    output_frames_gen := min input_frames (2 * output_frames) / 2 }

/-- A downstream that accepts exactly the formats of the given sample rate, an
allocator of 4096-byte buffers that never fails, and the halving resampler. -/
def sinkAcceptingOnly (rate : Nat) : Env :=
  { gAllowedSampleRates := exampleRates
    NextSink_NegotiateFormat := fun _ wfx _ =>
      if wfx.Format.nSamplesPerSec = rate then S_OK else VFW_E_TYPE_NOT_ACCEPTED
    NextSink_PutSample := fun _ _ => S_OK
    NextSink_Forward := fun _ _ => S_OK
    GetBuffer := fun _ _ => (S_OK, { size := 4096, actualDataLength := 0, timeStart := 0 })
    GetPointer := fun _ => S_OK
    src_new := fun _ _ _ => (some 1, 0)
    src_reset := fun _ _ => 0
    src_process := halvingResampler }

/-- As `sinkAcceptingOnly 44100`, but the allocator hands out one 8-byte buffer
and fails with `E_OUTOFMEMORY` from then on. -/
def allocatorFailingSecond : Env :=
  { sinkAcceptingOnly 44100 with
    GetBuffer := fun log _ =>
      if log = [] then (S_OK, { size := 8, actualDataLength := 0, timeStart := 0 })
      else (E_OUTOFMEMORY, { size := 0, actualDataLength := 0, timeStart := 0 }) }

/-- As `sinkAcceptingOnly 44100`, but the first call of `src_process` reports an
error (code 7) and uses and produces nothing; later calls halve as before. -/
def resamplerFailingFirst : Env :=
  { sinkAcceptingOnly 44100 with
    src_process := fun log state input_frames output_frames ratio =>
      if log.length ≤ 1 then { ret := 7, input_frames_used := 0, output_frames_gen := 0 }
      else halvingResampler log state input_frames output_frames ratio }

/-- A freshly constructed stage with a downstream attached. What the memory
holds in the five members of the initialiser list is overwritten by it. -/
def freshStage : CSampleRateConverter :=
  CSampleRateConverter.construct
    { m_pNextSink := true, m_pInputFormat := none, m_pOutputFormat := none,
      m_pNextOutSample := none, m_bDiscontinuity := false, m_bPassThrough := true,
      m_rtInSampleTime := 0, m_pSettings := { m_nResamplingQuality := 0 },
      m_pSrcState := some 0, m_dSampleRateRation := 0, m_nFrameSize := 0,
      m_nBitsPerSample := 0, m_nBytesPerSample := 0 }
    { m_nResamplingQuality := 2 }

/-- A stage converting stereo float (frame size 8) from one rate to another. -/
def convertingStage (inRate outRate : Nat) : CSampleRateConverter :=
  { freshStage with
    m_pInputFormat := some (floatStereo inRate)
    m_pOutputFormat := some (floatStereo outRate)
    m_pSrcState := some 1
    m_dSampleRateRation := (outRate : ℚ) / (inRate : ℚ)
    m_nFrameSize := 8
    m_nBitsPerSample := 32
    m_nBytesPerSample := 4 }

/-- The stage `convertingStage 44100 48000` after a committed pass-through
negotiation of 48 kHz stereo float: the resampler handle is still there. -/
def passThroughAfterConversion : CSampleRateConverter :=
  { convertingStage 44100 48000 with
    m_bPassThrough := true
    m_pInputFormat := some (floatStereo 48000)
    m_pOutputFormat := some (floatStereo 48000) }

/-! ## The loop body of `ProcessData` in steps -/

/-- The first two steps of the loop body of `ProcessData`: emit the pending
buffer if it has no room for a frame, then request a buffer if there is none. -/
def bodyPrepare (env : Env) (v : LoopVars) : HRESULT × CSampleRateConverter × List Event :=
  let r1 : HRESULT × CSampleRateConverter × List Event :=
    match v.self.m_pNextOutSample with
    | some sample =>
      if sample.actualDataLength + v.self.m_nFrameSize > sample.size then
        OutputNextSample env v.self v.log
      else (v.hr, v.self, v.log)
    | none => (v.hr, v.self, v.log)
  if r1.2.1.m_pNextOutSample.isNone then
    RequestNextOutBuffer env r1.2.1 r1.2.2 r1.2.1.m_rtInSampleTime
  else r1

/-- The rest of the loop body of `ProcessData`, from `GetPointer` on, for the
stage `s2` and call log `log2` left by the first two steps and the pending
buffer `sample` of `s2`. -/
def bodyConvert (env : Env) (v : LoopVars) (s2 : CSampleRateConverter) (log2 : List Event)
    (sample : IMediaSample) (pcbDataProcessed : Option Int) : Except Fault BodyResult :=
  let nOffset := sample.actualDataLength
  let nSize := sample.size
  let hr3 := env.GetPointer log2
  if FAILED hr3 then .ok (BodyResult.done hr3 pcbDataProcessed s2 log2)
  else if s2.m_nFrameSize = 0 then .error Fault.divByZero
  else
    let input_frames := Int.tdiv v.cbData s2.m_nFrameSize
    let output_frames := Int.tdiv (nSize - nOffset) s2.m_nFrameSize
    let data := env.src_process log2 s2.m_pSrcState input_frames output_frames
      s2.m_dSampleRateRation
    let log3 := log2 ++
      [Event.srcProcess s2.m_pSrcState v.pData input_frames output_frames]
    let pData1 := v.pData + data.input_frames_used * s2.m_nFrameSize
    let bytesOutput1 := v.bytesOutput + data.output_frames_gen * s2.m_nFrameSize
    let cbData1 := v.cbData - data.input_frames_used * s2.m_nFrameSize
    let nOffset1 := nOffset + data.output_frames_gen * s2.m_nFrameSize
    let s3 : CSampleRateConverter :=
      { s2 with m_pNextOutSample := some { sample with actualDataLength := nOffset1 } }
    let r4 : HRESULT × CSampleRateConverter × List Event :=
      if nOffset1 + s2.m_nFrameSize > nSize then OutputNextSample env s3 log3
      else (hr3, s3, log3)
    match r4.2.1.m_pOutputFormat with
    | none => .error Fault.nullDeref
    | some outFmt =>
      if outFmt.Format.nAvgBytesPerSec = 0 then .error Fault.divByZero
      else
        .ok (BodyResult.next
          { self :=
              { r4.2.1 with
                m_rtInSampleTime := r4.2.1.m_rtInSampleTime +
                  Int.tdiv (data.output_frames_gen * s2.m_nFrameSize * UNITS)
                    (outFmt.Format.nAvgBytesPerSec : Int) }
            log := r4.2.2
            hr := hr3
            pData := pData1
            cbData := cbData1
            bytesOutput := bytesOutput1 })

/-- Whether the loop body has to request an output buffer: there is none pending,
or the pending one has no room for a frame and is emitted first. -/
def needsRequest (v : LoopVars) : Bool :=
  match v.self.m_pNextOutSample with
  | some sample => decide (sample.actualDataLength + v.self.m_nFrameSize > sample.size)
  | none => true

/-- The emission at the head of the loop body: the pending buffer, if it has no
room for a frame. -/
def emittedAtHead (v : LoopVars) : List Event :=
  match v.self.m_pNextOutSample with
  | some sample =>
    if sample.actualDataLength + v.self.m_nFrameSize > sample.size then
      [Event.sinkPutSample sample]
    else []
  | none => []

/-- The external calls of the first two steps of the loop body. -/
def prepEvents (v : LoopVars) : List Event :=
  if needsRequest v then
    emittedAtHead v ++ [Event.requestBuffer v.self.m_rtInSampleTime]
  else []

/-- The output buffer the loop body fills: the pending one if it has room for a
frame, a newly requested one otherwise (none if the request fails). -/
def bufferInUse (env : Env) (v : LoopVars) : Option IMediaSample :=
  if needsRequest v then
    if FAILED (env.GetBuffer (v.log ++ emittedAtHead v) v.self.m_rtInSampleTime).1 then none
    else some { (env.GetBuffer (v.log ++ emittedAtHead v) v.self.m_rtInSampleTime).2
                with timeStart := v.self.m_rtInSampleTime }
  else v.self.m_pNextOutSample

/-! ## More vocabulary of the statements -/

/-- The external calls `NegotiateFormat` can make: downstream negotiations, all
with the given depth, and the deletion and creation of a resampler. -/
def NegotiationEvent (depth : Int) : Event → Prop
  | Event.sinkNegotiate _ d => d = depth
  | Event.srcNew _ _ => True
  | Event.srcDelete _ => True
  | _ => False

/-- The external calls of a flush: the emission of the pending buffer, if there is
one, then the resampler reset. -/
def flushEvents (s : CSampleRateConverter) : List Event :=
  (match s.m_pNextOutSample with
    | some sample => [Event.sinkPutSample sample]
    | none => []) ++ [Event.srcReset s.m_pSrcState]

/-- The stage and call log at the moment `PutSample` calls `NegotiateFormat` for
a buffer with a new format: the discontinuity flag is recorded and, outside
pass-through mode, the conversion has been flushed. -/
def beforeRenegotiation (env : Env) (s : CSampleRateConverter) (log : List Event)
    (sample : InputSample) : CSampleRateConverter × List Event :=
  let s0 : CSampleRateConverter :=
    if sample.isDiscontinuity then { s with m_bDiscontinuity := true } else s
  if s0.m_bPassThrough then (s0, log)
  else ((ProcessDataFlush env s0 log none).2.2.1, (ProcessDataFlush env s0 log none).2.2.2)

/-- An external call that hands input data on: to the resampler, or unchanged to
the downstream. -/
def DataEvent : Event → Prop
  | Event.srcProcess _ _ _ _ => True
  | Event.sinkForward _ => True
  | _ => False

/-- The value of `nAvgBytesPerSec` of the active output format (0 if there is
none). -/
def outputAvgBytesPerSec (s : CSampleRateConverter) : Int :=
  match s.m_pOutputFormat with
  | some outFmt => (outFmt.Format.nAvgBytesPerSec : Int)
  | none => 0

/-- The variables with which `ProcessData` enters its loop. -/
def loopEntry (s : CSampleRateConverter) (log : List Event) (pData cbData : Int) : LoopVars :=
  { self := s, log := log, hr := S_OK, pData := pData, cbData := cbData, bytesOutput := 0 }

/-- The runs of the loop of `ProcessData`: `LoopTrace env pcb v0 v produced` says
that from the variables `v0` some iterations, each entered with `cbData ≠ 0` and
run to the end of the body, lead to the variables `v`; `produced` lists the
bytes each of them added to `bytesOutput`. -/
inductive LoopTrace (env : Env) (pcb : Option Int) (v0 : LoopVars) :
    LoopVars → List Int → Prop
  | start : LoopTrace env pcb v0 v0 []
  | step {v v1 : LoopVars} {produced : List Int} :
      LoopTrace env pcb v0 v produced → v.cbData ≠ 0 →
      ProcessDataBody env v pcb = .ok (BodyResult.next v1) →
      LoopTrace env pcb v0 v1 (produced ++ [v1.bytesOutput - v.bytesOutput])

/-- The timestamp advance the loop of `ProcessData` makes for iterations that
produce the listed numbers of bytes: each count is converted to time units on
its own, with truncating division. -/
def advanceByIterations (avgBytesPerSec : Int) (produced : List Int) : Int :=
  (produced.map (fun b => Int.tdiv (b * UNITS) avgBytesPerSec)).sum

/-- The probing order in the words of the specification (claim C15), not of the
code: the table read circularly from the index just after the first entry equal
to the candidate's rate (from index 0 if there is none), without the entries
equal to that rate. -/
def specProbeOrder (tbl : List Nat) (rate : Nat) : List Nat :=
  let start := if rate ∈ tbl then tbl.indexOf rate + 1 else 0
  (tbl.drop start ++ tbl.take start).filter (fun r => decide (r ≠ rate))

/-- A list of rates cut off immediately after the first accepted one. -/
def cutAfterAccepted (accepts : Nat → Bool) : List Nat → List Nat
  | [] => []
  | r :: rest => if accepts r then [r] else r :: cutAfterAccepted accepts rest

/-- The sample rates of the downstream negotiation calls in a stretch of the
call log, in the order of the calls. -/
def negotiatedRates (log : List Event) : List Nat :=
  log.filterMap (fun e => match e with
    | Event.sinkNegotiate wfx _ => some wfx.Format.nSamplesPerSec
    | _ => none)

/-- The number of input frames offered to the resampler in a stretch of the call
log. -/
def framesOffered (log : List Event) : Int :=
  (log.map (fun e => match e with
    | Event.srcProcess _ _ input_frames _ => input_frames
    | _ => 0)).sum

/-! ## More stages and collaborators -/

/-- As `sinkAcceptingOnly 44100`, but the allocator hands out 8-byte buffers
(one stereo float frame). -/
def eightByteBuffers : Env :=
  { sinkAcceptingOnly 44100 with
    GetBuffer := fun _ _ => (S_OK, { size := 8, actualDataLength := 0, timeStart := 0 }) }

/-- A resampler of ratio 1/2 that keeps its position in the stream: it uses every
frame offered and has produced, after `n` frames in all, `n / 2` frames in all.
The frames used so far are those offered in the calls logged so far. -/
def streamingHalver (log : List Event) (_ : Option Nat) (input_frames _ : Int) (_ : ℚ) :
    SRC_RESULT :=
  { ret := 0
    input_frames_used := input_frames
    output_frames_gen := (framesOffered log + input_frames) / 2 - framesOffered log / 2 }

/-- As `sinkAcceptingOnly 44100`, with the streaming resampler of ratio 1/2. -/
def streamingEnv : Env :=
  { sinkAcceptingOnly 44100 with src_process := streamingHalver }

/-- A 16-byte input buffer (two stereo float frames) at address 0, without an
attached format. -/
def twoFrameSample : InputSample :=
  { mediaType := none, isDiscontinuity := false, actualDataLength := 16, timeStart := some 0,
    pointerResult := S_OK, pData := 0 }

/-- A resampler of ratio 1/2 as `halvingResampler` that treats a negative
number of offered frames as none. -/
def clampingResampler (_ : List Event) (_ : Option Nat) (input_frames output_frames : Int)
    (_ : ℚ) : SRC_RESULT :=
  { ret := 0
    input_frames_used := max 0 (min input_frames (2 * output_frames))
    output_frames_gen := max 0 (min input_frames (2 * output_frames)) / 2 }

/-- As `sinkAcceptingOnly 44100`, with the clamping resampler. -/
def clampingEnv : Env :=
  { sinkAcceptingOnly 44100 with src_process := clampingResampler }

/-- The loop variables after the first iteration of `ProcessData` on 16 bytes at
address 0 in `convertingStage 88200 44100`, with 4096-byte buffers and a
resampler that uses both frames and produces one. -/
def afterOneIteration : LoopVars :=
  { self :=
      { convertingStage 88200 44100 with
        m_pNextOutSample := some { size := 4096, actualDataLength := 8, timeStart := 0 }
        m_rtInSampleTime := 226 }
    log := [Event.requestBuffer 0, Event.srcProcess (some 1) 0 2 512]
    hr := S_OK, pData := 16, cbData := 0, bytesOutput := 8 }

/-- The buffer `twoFrameSample` with a 32 kHz stereo float format attached. -/
def sampleWithNewFormat : InputSample :=
  { twoFrameSample with mediaType := some (floatStereo 32000) }

/-- The stage `convertingStage 44100 48000` holding a pending output buffer with
one frame in it. -/
def stageWithPending : CSampleRateConverter :=
  { convertingStage 44100 48000 with
    m_pNextOutSample := some { size := 4096, actualDataLength := 8, timeStart := 0 } }

/-- 5.1 32-bit float at the given rate (frame size 24). -/
def floatSurround (rate : Nat) : WAVEFORMATEXTENSIBLE :=
  { Format :=
      { wFormatTag := 0xFFFE, nChannels := 6, nSamplesPerSec := rate,
        nAvgBytesPerSec := rate * 24, nBlockAlign := 24, wBitsPerSample := 32, cbSize := 22 }
    wValidBitsPerSample := 32
    dwChannelMask := 0x3F
    SubFormat := KSDATAFORMAT_SUBTYPE_IEEE_FLOAT }

/-- The stage `convertingStage 44100 48000` holding an output buffer filled to
`fill` bytes, at the timestamp `rt`. -/
def stereoStageWithPending (fill rt : Int) : CSampleRateConverter :=
  { convertingStage 44100 48000 with
    m_pNextOutSample := some { size := 4096, actualDataLength := fill, timeStart := 0 }
    m_rtInSampleTime := rt }

/-- The stage `stereoStageWithPending fill rt` after a committed negotiation of
5.1 float at 44.1 kHz, converted to 48 kHz: the frame size is 24 and the output
buffer of the stereo conversion is still pending. -/
def surroundStageWithPending (fill rt : Int) : CSampleRateConverter :=
  { stereoStageWithPending fill rt with
    m_pInputFormat := some (floatSurround 44100)
    m_pOutputFormat := some (floatSurround 48000)
    m_nFrameSize := 24 }

/-- The call log of the committed negotiation of 44.1 kHz stereo float on
`freshStage`, followed by a `ProcessData` call on `frames` stereo frames at
address 0. -/
def stereoLog (frames : Int) : List Event :=
  [Event.sinkNegotiate (floatStereo 44100) 0, Event.sinkNegotiate (floatStereo 48000) 0,
    Event.srcNew 2 2, Event.requestBuffer 0, Event.srcProcess (some 1) 0 frames 512]

/-- The log `stereoLog frames` followed by the committed negotiation of 5.1 float
at 44.1 kHz. -/
def surroundLog (frames : Int) : List Event :=
  stereoLog frames ++
    [Event.sinkNegotiate (floatSurround 44100) 0, Event.sinkNegotiate (floatSurround 48000) 0,
      Event.srcDelete 1, Event.srcNew 2 6]

/-! ## Lemmas -/

theorem FAILED_eq_false_iff (hr : HRESULT) : FAILED hr = false ↔ SUCCEEDED hr = true := by
  simp [FAILED, SUCCEEDED]

theorem SameButRate.set {a b : WAVEFORMATEXTENSIBLE} (h : SameButRate a b) (r v : Nat) :
    SameButRate
      { a with Format := { a.Format with nSamplesPerSec := r, nAvgBytesPerSec := v } } b := by
  unfold SameButRate at h ⊢
  rw [h]

theorem probeLoop_of_not_failed (env : Env) (wfx : WAVEFORMATEXTENSIBLE) (d : Int)
    (remaining i : Nat) (hr : HRESULT) (pOut : WAVEFORMATEXTENSIBLE) (log : List Event)
    (h : FAILED hr = false) :
    probeLoop env wfx d remaining i hr pOut log = .ok (hr, pOut, log) := by
  cases remaining with
  | zero => rfl
  | succ k => simp [probeLoop, h]

theorem probeLoop_accept (env : Env) (wfx : WAVEFORMATEXTENSIBLE) (d : Int) :
    ∀ (remaining i : Nat) (hr : HRESULT) (pOut : WAVEFORMATEXTENSIBLE) (log : List Event)
      (hr' : HRESULT) (pOut' : WAVEFORMATEXTENSIBLE) (log' : List Event),
      FAILED hr = true → SameButRate pOut wfx →
      probeLoop env wfx d remaining i hr pOut log = .ok (hr', pOut', log') →
      FAILED hr' = false →
      ∃ (rate : Nat) (logPre : List Event),
        rate ∈ env.gAllowedSampleRates ∧ pOut' = withRate wfx rate ∧
        log' = logPre ++ [Event.sinkNegotiate pOut' d] ∧
        hr' = env.NextSink_NegotiateFormat logPre pOut' d ∧
        wfx.Format.nSamplesPerSec ≠ 0 := by
  intro remaining
  induction remaining with
  | zero =>
    intro i hr pOut log hr' pOut' log' hf _ h hs
    simp [probeLoop] at h
    rw [← h.1, hf] at hs
    simp at hs
  | succ k ih =>
    intro i hr pOut log hr' pOut' log' hf hsame h hs
    unfold probeLoop at h
    by_cases hz : pOut.Format.nSamplesPerSec = 0
    · simp only [hf, hz, decide_True, Bool.and_self, if_true] at h
      by_cases hskip : (0 : Nat) = wfx.Format.nSamplesPerSec
      · rw [if_pos hskip] at h
        exact ih _ _ _ _ _ _ _ hf hsame h hs
      · rw [if_neg hskip] at h
        cases hget : env.gAllowedSampleRates[i]? with
        | none => rw [hget] at h; simp at h
        | some rate =>
          rw [hget] at h
          simp only at h
          have hmem : rate ∈ env.gAllowedSampleRates := List.getElem?_mem hget
          have hp1 : ({ pOut with
              Format :=
                { pOut.Format with
                  nSamplesPerSec := rate
                  nAvgBytesPerSec := (rate * pOut.Format.nBlockAlign) % 2 ^ 32 } } :
              WAVEFORMATEXTENSIBLE) = withRate wfx rate := by
            rw [hsame]; rfl
          rw [hp1] at h
          by_cases hf1 : FAILED (env.NextSink_NegotiateFormat log (withRate wfx rate) d) = true
          · rw [if_pos hf1] at h
            exact ih _ _ _ _ _ _ _ hf1 (hsame.set 0 _) h hs
          · rw [if_neg hf1] at h
            have hf1' : FAILED (env.NextSink_NegotiateFormat log (withRate wfx rate) d) = false := by
              simpa using hf1
            rw [probeLoop_of_not_failed _ _ _ _ _ _ _ _ hf1'] at h
            simp at h
            obtain ⟨h1, h2, h3⟩ := h
            refine ⟨rate, log, hmem, h2.symm, ?_, ?_, fun h0 => hskip h0.symm⟩
            · rw [← h3, ← h2]
            · rw [← h1, ← h2]
    · simp [hf, hz] at h
      rw [← h.1, hf] at hs
      simp at hs

theorem SetupConversion_spec (env : Env) (s : CSampleRateConverter) (log : List Event)
    (hrS : HRESULT) (s3 : CSampleRateConverter) (log3 : List Event)
    (inFmt outFmt : WAVEFORMATEXTENSIBLE)
    (hi : s.m_pInputFormat = some inFmt) (ho : s.m_pOutputFormat = some outFmt)
    (h : SetupConversion env s log = .ok (hrS, s3, log3)) :
    log3 = log ++ setupEvents s inFmt.Format.nChannels ∧
    s3 = { s with
           m_nBitsPerSample := 32
           m_nFrameSize := inFmt.Format.nBlockAlign
           m_nBytesPerSample := inFmt.Format.wBitsPerSample / 8
           m_dSampleRateRation :=
             (outFmt.Format.nSamplesPerSec : ℚ) / (inFmt.Format.nSamplesPerSec : ℚ)
           m_pSrcState :=
             (env.src_new (log ++ (setupEvents s inFmt.Format.nChannels).dropLast)
               s.m_pSettings.m_nResamplingQuality inFmt.Format.nChannels).1 } := by
  unfold SetupConversion at h
  rw [hi, ho] at h
  simp only at h
  have hl : (match s.m_pSrcState with
      | some h => log ++ [Event.srcDelete h]
      | none => log) = log ++ (setupEvents s inFmt.Format.nChannels).dropLast := by
    unfold setupEvents
    cases s.m_pSrcState <;> simp
  have hl2 : log ++ setupEvents s inFmt.Format.nChannels =
      (log ++ (setupEvents s inFmt.Format.nChannels).dropLast) ++
        [Event.srcNew s.m_pSettings.m_nResamplingQuality inFmt.Format.nChannels] := by
    unfold setupEvents
    cases s.m_pSrcState <;> simp
  rw [hl] at h
  rw [hl2]
  split at h
  all_goals
    simp only [Except.ok.injEq, Prod.mk.injEq] at h
    refine ⟨h.2.2.symm, ?_⟩
    rw [← h.2.1, hi, ho]

/-- A committing call that gets past the pass-through attempt and returns success
has found a table rate the downstream accepted and has run `SetupConversion` on
the stage with the new formats. -/
theorem NegotiateFormat_commits_conversion (env : Env) (s : CSampleRateConverter)
    (log : List Event) (wfx : WAVEFORMATEXTENSIBLE) (nApplyChangesDepth : Int)
    (hr : HRESULT) (s' : CSampleRateConverter) (log' : List Event)
    (hdepth : nApplyChangesDepth ≠ 0)
    (hfloat : wfx.SubFormat = KSDATAFORMAT_SUBTYPE_IEEE_FLOAT)
    (hne : FormatsEqual (some wfx) s.m_pInputFormat = false)
    (hsink : s.m_pNextSink = true)
    (hrej : SUCCEEDED (env.NextSink_NegotiateFormat log wfx (forwardedDepth nApplyChangesDepth)) = false)
    (h : NegotiateFormat env s log (some wfx) nApplyChangesDepth = .ok (hr, s', log'))
    (hok : SUCCEEDED hr = true) :
    ∃ (rate : Nat) (logPre : List Event) (hrS : HRESULT),
      rate ∈ env.gAllowedSampleRates ∧
      wfx.Format.nSamplesPerSec ≠ 0 ∧
      SUCCEEDED (env.NextSink_NegotiateFormat logPre (withRate wfx rate)
        (forwardedDepth nApplyChangesDepth)) = true ∧
      SetupConversion env
        (SetOutputFormat (SetInputFormat { s with m_bPassThrough := false } wfx)
          (withRate wfx rate))
        (logPre ++ [Event.sinkNegotiate (withRate wfx rate) (forwardedDepth nApplyChangesDepth)])
        = .ok (hrS, s', log') := by
  have hns : (!s.m_pNextSink) = false := by simp [hsink]
  have hnf : ¬ (wfx.SubFormat ≠ KSDATAFORMAT_SUBTYPE_IEEE_FLOAT) := by simp [hfloat]
  have hb : decide (nApplyChangesDepth ≠ 0) = true := by simpa using hdepth
  unfold NegotiateFormat at h
  simp only [hne, hns, hrej, hb, Bool.false_eq_true, if_false, if_true] at h
  rw [if_neg hnf] at h
  split at h
  · simp at h
  · rename_i startPoint found hsearch
    split at h
    · simp at h
    · rename_i hr2 pOut log2 hloop
      by_cases hf2 : FAILED hr2 = true
      · rw [if_pos hf2] at h
        simp only [Except.ok.injEq, Prod.mk.injEq] at h
        obtain ⟨h1, -, -⟩ := h
        subst h1
        simp [FAILED, SUCCEEDED] at hf2 hok
        exact absurd hok (not_le.mpr hf2)
      · rw [if_neg hf2] at h
        have hf2' : FAILED hr2 = false := by simpa using hf2
        obtain ⟨rate, logPre, hmem, hpOut, hlog2, hhr2, hrate⟩ :=
          probeLoop_accept env wfx _ _ _ _ _ _ _ _ _ (by decide) (by rfl) hloop hf2'
        subst hpOut hlog2
        split at h
        · simp at h
        · rename_i hrS s3 log3 hsetup
          simp only [Except.ok.injEq, Prod.mk.injEq] at h
          obtain ⟨-, h2, h3⟩ := h
          subst h2 h3
          refine ⟨rate, logPre, hrS, hmem, hrate, ?_, hsetup⟩
          rw [← hhr2]; exact (FAILED_eq_false_iff hr2).mp hf2'

/-- One iteration of the conversion loop that runs to the end of its body. -/
theorem ProcessDataLoop_next (env : Env) (fuel : Nat) (v v1 : LoopVars) (pcb : Option Int)
    (hcb : v.cbData ≠ 0) (hbody : ProcessDataBody env v pcb = .ok (BodyResult.next v1)) :
    ProcessDataLoop env (fuel + 1) v pcb = ProcessDataLoop env fuel v1 pcb := by
  rw [ProcessDataLoop, if_neg hcb]
  simp only [hbody]

/-! ## The claims -/

/-- Claim C1, evaluated on the code. Frame size 8, a 16-byte input (two frames),
an allocator that succeeds and a resampler of ratio 1/2 that uses both frames
offered and produces one (capacity 512): `ProcessData` consumes all 16 bytes
and returns `S_OK`, yet the count written through `pcbDataProcessed` is 8, the
number of bytes produced, and not 16. -/
theorem C1_reported_count_is_bytes_produced :
    (8 : Int) ∣ 16 ∧
    (∀ (log : List Event) (rtStart : Int),
      FAILED ((sinkAcceptingOnly 44100).GetBuffer log rtStart).1 = false) ∧
    halvingResampler [Event.requestBuffer 0] (some 1) 2 512 (1 / 2) =
      { ret := 0, input_frames_used := 2, output_frames_gen := 1 } ∧
    ProcessData (sinkAcceptingOnly 44100) 1 (convertingStage 88200 44100) [] (some 0) 16
        (some 0) =
      .ok (S_OK, some 8,
        { convertingStage 88200 44100 with
          m_pNextOutSample := some { size := 4096, actualDataLength := 8, timeStart := 0 }
          m_rtInSampleTime := 226 },
        [Event.requestBuffer 0, Event.srcProcess (some 1) 0 2 512]) ∧
    (8 : Int) ≠ 16 :=
  ⟨by decide, fun _ _ => rfl, rfl, rfl, by decide⟩

/-- Claim C2, evaluated on the code. With the table 22050, 32000, 44100, 48000,
88200, 96000, 192000 and a downstream that accepts exactly 22050 Hz, a 44100 Hz
float candidate is rejected unchanged, the table entry 22050 differs from the
candidate rate and is accepted by the downstream whenever it is asked, and still
`NegotiateFormat` fails: after index 6 the loop resumes at index 1, so it probes
48000, 88200, 96000, 192000, 32000, 44100, 48000 and never index 0. -/
theorem C2_lowest_rate_never_probed :
    (sinkAcceptingOnly 22050).gAllowedSampleRates.length = 7 ∧
    (∀ rate ∈ (sinkAcceptingOnly 22050).gAllowedSampleRates, rate ≠ 0) ∧
    freshStage.m_pNextSink = true ∧
    (floatStereo 44100).SubFormat = KSDATAFORMAT_SUBTYPE_IEEE_FLOAT ∧
    FormatsEqual (some (floatStereo 44100)) freshStage.m_pInputFormat = false ∧
    SUCCEEDED ((sinkAcceptingOnly 22050).NextSink_NegotiateFormat [] (floatStereo 44100) 0) = false ∧
    22050 ∈ (sinkAcceptingOnly 22050).gAllowedSampleRates ∧
    (22050 : Nat) ≠ (floatStereo 44100).Format.nSamplesPerSec ∧
    (∀ log : List Event, SUCCEEDED ((sinkAcceptingOnly 22050).NextSink_NegotiateFormat log
      (withRate (floatStereo 44100) 22050) 0) = true) ∧
    NegotiateFormat (sinkAcceptingOnly 22050) freshStage [] (some (floatStereo 44100)) 1 =
      .ok (VFW_E_TYPE_NOT_ACCEPTED, freshStage,
        Event.sinkNegotiate (floatStereo 44100) 0 ::
          [48000, 88200, 96000, 192000, 32000, 44100, 48000].map
            (fun rate => Event.sinkNegotiate (withRate (floatStereo 44100) rate) 0)) :=
  ⟨rfl, by decide, rfl, rfl, by decide, by decide, by decide, by decide, fun _ => rfl, rfl⟩

/-- Claim C3. A candidate that differs from the active input format, with a sink
attached and a non-zero depth, that the downstream accepts unchanged: the call
returns the downstream's success code, the stage is in pass-through mode with
the candidate as input and output format and nothing else changed (so the
resampler handle is untouched), and the only external call made is the one
pass-through negotiation: no table rate is probed, no resampler is created. -/
theorem C3_passthrough_preferred (env : Env) (s : CSampleRateConverter) (log : List Event)
    (wfx : WAVEFORMATEXTENSIBLE) (nApplyChangesDepth : Int)
    (hne : FormatsEqual (some wfx) s.m_pInputFormat = false)
    (hsink : s.m_pNextSink = true)
    (hdepth : nApplyChangesDepth ≠ 0)
    (hacc : SUCCEEDED (env.NextSink_NegotiateFormat log wfx (forwardedDepth nApplyChangesDepth)) = true) :
    NegotiateFormat env s log (some wfx) nApplyChangesDepth =
      .ok (env.NextSink_NegotiateFormat log wfx (forwardedDepth nApplyChangesDepth),
           { s with m_bPassThrough := true, m_pInputFormat := some wfx, m_pOutputFormat := some wfx },
           log ++ [Event.sinkNegotiate wfx (forwardedDepth nApplyChangesDepth)]) := by
  simp [NegotiateFormat, hne, hsink, hdepth, hacc, SetInputFormat, SetOutputFormat]

/-- Claim C3 at 44.1 kHz stereo float with a downstream that accepts 44.1 kHz. -/
theorem C3_passthrough_preferred_witness :
    FormatsEqual (some (floatStereo 44100)) freshStage.m_pInputFormat = false ∧
    freshStage.m_pNextSink = true ∧
    NegotiateFormat (sinkAcceptingOnly 44100) freshStage [] (some (floatStereo 44100)) 1 =
      .ok (S_OK,
        { freshStage with
          m_bPassThrough := true
          m_pInputFormat := some (floatStereo 44100)
          m_pOutputFormat := some (floatStereo 44100) },
        [Event.sinkNegotiate (floatStereo 44100) 0]) :=
  ⟨by decide, by decide,
    C3_passthrough_preferred (sinkAcceptingOnly 44100) freshStage [] (floatStereo 44100) 1
      (by decide) (by decide) (by decide) (by decide)⟩

/-- Claim C4 fails in both directions. The freshly constructed stage is not in
pass-through mode and has no resampler; and after a committed conversion
(44.1 kHz to 48 kHz) followed by a committed pass-through negotiation (48 kHz)
the stage is in pass-through mode and still holds the resampler. -/
theorem C4_session_iff_not_passthrough_fails :
    ¬ (freshStage.m_pSrcState.isSome = true ↔ freshStage.m_bPassThrough = false) ∧
    NegotiateFormat (sinkAcceptingOnly 48000) freshStage [] (some (floatStereo 44100)) 1 =
      .ok (S_OK, convertingStage 44100 48000,
        [Event.sinkNegotiate (floatStereo 44100) 0, Event.sinkNegotiate (floatStereo 48000) 0,
         Event.srcNew 2 2]) ∧
    NegotiateFormat (sinkAcceptingOnly 48000) (convertingStage 44100 48000)
        [Event.sinkNegotiate (floatStereo 44100) 0, Event.sinkNegotiate (floatStereo 48000) 0,
         Event.srcNew 2 2]
        (some (floatStereo 48000)) 1 =
      .ok (S_OK, passThroughAfterConversion,
        [Event.sinkNegotiate (floatStereo 44100) 0, Event.sinkNegotiate (floatStereo 48000) 0,
         Event.srcNew 2 2, Event.sinkNegotiate (floatStereo 48000) 0]) ∧
    ¬ (passThroughAfterConversion.m_pSrcState.isSome = true ↔
        passThroughAfterConversion.m_bPassThrough = false) :=
  ⟨by decide, rfl, rfl, by decide⟩

/-- Claim C4 as amended. The constructor leaves the stage out of pass-through mode
and without a resampler; and a committing `NegotiateFormat` that gets past the
pass-through attempt and succeeds ends with the stage out of pass-through mode,
with `src_new` as the last external call and the resampler handle equal to what
that call returned (so a session exists afterwards exactly when `src_new`
returned one). -/
theorem C4_session_after_conversion_commit (mem : CSampleRateConverter) (pSettings : AudioRendererSettings)
    (env : Env) (s : CSampleRateConverter) (log : List Event)
    (wfx : WAVEFORMATEXTENSIBLE) (nApplyChangesDepth : Int)
    (hr : HRESULT) (s' : CSampleRateConverter) (log' : List Event)
    (hdepth : nApplyChangesDepth ≠ 0)
    (hfloat : wfx.SubFormat = KSDATAFORMAT_SUBTYPE_IEEE_FLOAT)
    (hne : FormatsEqual (some wfx) s.m_pInputFormat = false)
    (hsink : s.m_pNextSink = true)
    (hrej : SUCCEEDED (env.NextSink_NegotiateFormat log wfx (forwardedDepth nApplyChangesDepth)) = false)
    (h : NegotiateFormat env s log (some wfx) nApplyChangesDepth = .ok (hr, s', log'))
    (hok : SUCCEEDED hr = true) :
    ((CSampleRateConverter.construct mem pSettings).m_bPassThrough = false ∧
      (CSampleRateConverter.construct mem pSettings).m_pSrcState = none) ∧
    s'.m_bPassThrough = false ∧
    ∃ logNew : List Event,
      log' = logNew ++ [Event.srcNew s.m_pSettings.m_nResamplingQuality wfx.Format.nChannels] ∧
      s'.m_pSrcState =
        (env.src_new logNew s.m_pSettings.m_nResamplingQuality wfx.Format.nChannels).1 := by
  obtain ⟨rate, logPre, hrS, hmem, hrate, hacc, hsetup⟩ :=
    NegotiateFormat_commits_conversion env s log wfx nApplyChangesDepth hr s' log'
      hdepth hfloat hne hsink hrej h hok
  obtain ⟨hl, hs3⟩ := SetupConversion_spec env _ _ _ _ _ wfx (withRate wfx rate) rfl rfl hsetup
  refine ⟨⟨rfl, rfl⟩, ?_,
    ⟨(logPre ++ [Event.sinkNegotiate (withRate wfx rate) (forwardedDepth nApplyChangesDepth)]) ++
      (setupEvents s wfx.Format.nChannels).dropLast, ?_, ?_⟩⟩
  · subst hs3; rfl
  · rw [hl]
    cases hstate : s.m_pSrcState <;> simp [setupEvents, SetInputFormat, SetOutputFormat, hstate]
  · subst hs3; rfl

/-- Claim C4 as amended, at 48 kHz stereo float with a downstream that accepts
96 kHz only. -/
theorem C4_session_after_conversion_commit_witness :
    NegotiateFormat (sinkAcceptingOnly 96000) freshStage [] (some (floatStereo 48000)) 1 =
      .ok (S_OK, convertingStage 48000 96000,
        [Event.sinkNegotiate (floatStereo 48000) 0, Event.sinkNegotiate (floatStereo 88200) 0,
         Event.sinkNegotiate (floatStereo 96000) 0, Event.srcNew 2 2]) ∧
    (((CSampleRateConverter.construct freshStage { m_nResamplingQuality := 2 }).m_bPassThrough
        = false ∧
      (CSampleRateConverter.construct freshStage { m_nResamplingQuality := 2 }).m_pSrcState
        = none) ∧
    (convertingStage 48000 96000).m_bPassThrough = false ∧
    ∃ logNew : List Event,
      [Event.sinkNegotiate (floatStereo 48000) 0, Event.sinkNegotiate (floatStereo 88200) 0,
        Event.sinkNegotiate (floatStereo 96000) 0, Event.srcNew 2 2] =
        logNew ++ [Event.srcNew 2 2] ∧
      (convertingStage 48000 96000).m_pSrcState =
        ((sinkAcceptingOnly 96000).src_new logNew 2 2).1) :=
  ⟨rfl,
    C4_session_after_conversion_commit freshStage { m_nResamplingQuality := 2 }
      (sinkAcceptingOnly 96000) freshStage [] (floatStereo 48000) 1 S_OK (convertingStage 48000 96000)
      [Event.sinkNegotiate (floatStereo 48000) 0, Event.sinkNegotiate (floatStereo 88200) 0,
        Event.sinkNegotiate (floatStereo 96000) 0, Event.srcNew 2 2]
      (by decide) rfl (by decide) (by decide) (by decide) rfl (by decide)⟩

/-- Claim C5. Whenever `NegotiateFormat` returns, if the returned code is not a
success or the depth argument is zero, the stage afterwards is the stage
before, in every member. -/
theorem C5_state_changes_only_on_committed_success (env : Env) (s : CSampleRateConverter) (log : List Event)
    (pwfx : Option WAVEFORMATEXTENSIBLE) (nApplyChangesDepth : Int)
    (hr : HRESULT) (s' : CSampleRateConverter) (log' : List Event)
    (h : NegotiateFormat env s log pwfx nApplyChangesDepth = .ok (hr, s', log'))
    (hno : SUCCEEDED hr = false ∨ nApplyChangesDepth = 0) : s' = s := by
  unfold NegotiateFormat at h
  split at h
  · simp at h; exact h.2.1.symm
  · split at h
    · simp at h; exact h.2.1.symm
    · split at h
      · simp at h; exact h.2.1.symm
      · simp only at h
        split at h
        · split at h
          · rename_i hs hb
            simp at h
            obtain ⟨h1, h2, h3⟩ := h
            rcases hno with hno | hno
            · rw [← h1, hs] at hno; simp at hno
            · simp [hno] at hb
          · simp at h; exact h.2.1.symm
        · split at h
          · simp at h; exact h.2.1.symm
          · split at h
            · simp at h
            · split at h
              · simp at h
              · split at h
                · simp at h; exact h.2.1.symm
                · split at h
                  · rename_i hb
                    rcases hno with hno | hno
                    · split at h
                      · simp at h
                      · simp at h
                        rw [← h.1] at hno
                        simp [SUCCEEDED, S_OK] at hno
                    · simp [hno] at hb
                  · simp at h; exact h.2.1.symm

/-- Claim C5 at a probe-only call (depth 0) that succeeds by finding 48 kHz. -/
theorem C5_state_changes_only_on_committed_success_witness :
    NegotiateFormat (sinkAcceptingOnly 48000) freshStage [] (some (floatStereo 44100)) 0 =
      .ok (S_OK, freshStage,
        [Event.sinkNegotiate (floatStereo 44100) 0,
         Event.sinkNegotiate (floatStereo 48000) 0]) ∧
    freshStage = freshStage :=
  ⟨rfl,
    C5_state_changes_only_on_committed_success (sinkAcceptingOnly 48000) freshStage []
      (some (floatStereo 44100)) 0 S_OK freshStage
      [Event.sinkNegotiate (floatStereo 44100) 0, Event.sinkNegotiate (floatStereo 48000) 0]
      rfl (Or.inr rfl)⟩

/-- Claim C6. A non-null candidate equal to the active input format: for every
depth, with or without a sink, the call returns `S_OK`, the stage is unchanged
and the call log is unchanged (no downstream call, no resampler created). -/
theorem C6_equal_format_is_noop (env : Env) (s : CSampleRateConverter) (log : List Event)
    (wfx : WAVEFORMATEXTENSIBLE) (nApplyChangesDepth : Int)
    (heq : FormatsEqual (some wfx) s.m_pInputFormat = true) :
    NegotiateFormat env s log (some wfx) nApplyChangesDepth = .ok (S_OK, s, log) := by
  simp [NegotiateFormat, heq]

/-- Claim C6 at a stage without a sink whose input format is 48 kHz stereo float. -/
theorem C6_equal_format_is_noop_witness :
    FormatsEqual (some (floatStereo 48000))
      ({ convertingStage 48000 96000 with m_pNextSink := false } : CSampleRateConverter).m_pInputFormat
        = true ∧
    NegotiateFormat (sinkAcceptingOnly 96000) { convertingStage 48000 96000 with m_pNextSink := false }
      [] (some (floatStereo 48000)) 5 =
      .ok (S_OK, { convertingStage 48000 96000 with m_pNextSink := false }, []) :=
  ⟨by decide,
    C6_equal_format_is_noop (sinkAcceptingOnly 96000)
      { convertingStage 48000 96000 with m_pNextSink := false } [] (floatStereo 48000) 5 (by decide)⟩

/-- Claim C7. A committing call on a float candidate that the downstream rejects
unchanged and that returns success: there is a table entry `rate` that the
downstream accepted, the stage is not in pass-through mode, its input format is
the candidate, its output format is the candidate with sample rate `rate` and
byte rate `rate * nBlockAlign` as a 32-bit product (the product itself when it
fits), channel count, bits per sample, block alignment and encoding unchanged,
the frame size is the input block alignment and the rate ratio is `rate`
divided by the (non-zero) input rate. -/
theorem C7_conversion_commit (env : Env) (s : CSampleRateConverter) (log : List Event)
    (wfx : WAVEFORMATEXTENSIBLE) (nApplyChangesDepth : Int)
    (hr : HRESULT) (s' : CSampleRateConverter) (log' : List Event)
    (hdepth : nApplyChangesDepth ≠ 0)
    (hfloat : wfx.SubFormat = KSDATAFORMAT_SUBTYPE_IEEE_FLOAT)
    (hne : FormatsEqual (some wfx) s.m_pInputFormat = false)
    (hsink : s.m_pNextSink = true)
    (hrej : SUCCEEDED (env.NextSink_NegotiateFormat log wfx (forwardedDepth nApplyChangesDepth)) = false)
    (h : NegotiateFormat env s log (some wfx) nApplyChangesDepth = .ok (hr, s', log'))
    (hok : SUCCEEDED hr = true) :
    ∃ (rate : Nat) (outFmt : WAVEFORMATEXTENSIBLE) (logPre logPost : List Event),
      rate ∈ env.gAllowedSampleRates ∧
      log' = logPre ++ Event.sinkNegotiate outFmt (forwardedDepth nApplyChangesDepth) :: logPost ∧
      SUCCEEDED (env.NextSink_NegotiateFormat logPre outFmt
        (forwardedDepth nApplyChangesDepth)) = true ∧
      s'.m_bPassThrough = false ∧
      s'.m_pInputFormat = some wfx ∧
      s'.m_pOutputFormat = some outFmt ∧
      outFmt = withRate wfx rate ∧
      outFmt.Format.nChannels = wfx.Format.nChannels ∧
      outFmt.Format.wBitsPerSample = wfx.Format.wBitsPerSample ∧
      outFmt.Format.nBlockAlign = wfx.Format.nBlockAlign ∧
      outFmt.SubFormat = wfx.SubFormat ∧
      outFmt.Format.nSamplesPerSec = rate ∧
      outFmt.Format.nAvgBytesPerSec = (rate * wfx.Format.nBlockAlign) % 2 ^ 32 ∧
      (rate * wfx.Format.nBlockAlign < 2 ^ 32 →
        outFmt.Format.nAvgBytesPerSec = rate * wfx.Format.nBlockAlign) ∧
      s'.m_nFrameSize = (wfx.Format.nBlockAlign : Int) ∧
      wfx.Format.nSamplesPerSec ≠ 0 ∧
      s'.m_dSampleRateRation = (rate : ℚ) / (wfx.Format.nSamplesPerSec : ℚ) := by
  obtain ⟨rate, logPre, hrS, hmem, hrate, hacc, hsetup⟩ :=
    NegotiateFormat_commits_conversion env s log wfx nApplyChangesDepth hr s' log'
      hdepth hfloat hne hsink hrej h hok
  obtain ⟨hl, hs3⟩ := SetupConversion_spec env _ _ _ _ _ wfx (withRate wfx rate) rfl rfl hsetup
  have havg : (withRate wfx rate).Format.nAvgBytesPerSec =
      (rate * wfx.Format.nBlockAlign) % 2 ^ 32 := rfl
  refine ⟨rate, withRate wfx rate, logPre, setupEvents s wfx.Format.nChannels, hmem, ?_, hacc,
    ?_, ?_, ?_, rfl, rfl, rfl, rfl, rfl, rfl, rfl,
    fun hlt => by rw [havg, Nat.mod_eq_of_lt hlt], ?_, hrate, ?_⟩
  · rw [hl]; simp [setupEvents, SetInputFormat, SetOutputFormat]
  all_goals (subst hs3; rfl)

/-- Claim C7 at 44.1 kHz stereo float (frame size 8) with a downstream that
accepts 48 kHz only: output rate 48000, ratio 48000 / 44100. -/
theorem C7_conversion_commit_witness :
    NegotiateFormat (sinkAcceptingOnly 48000) freshStage [] (some (floatStereo 44100)) 1 =
      .ok (S_OK, convertingStage 44100 48000,
        [Event.sinkNegotiate (floatStereo 44100) 0, Event.sinkNegotiate (floatStereo 48000) 0,
         Event.srcNew 2 2]) ∧
    (convertingStage 44100 48000).m_pOutputFormat = some (floatStereo 48000) ∧
    (convertingStage 44100 48000).m_dSampleRateRation = (48000 : ℚ) / 44100 ∧
    ∃ (rate : Nat) (outFmt : WAVEFORMATEXTENSIBLE) (logPre logPost : List Event),
      rate ∈ exampleRates ∧
      [Event.sinkNegotiate (floatStereo 44100) 0, Event.sinkNegotiate (floatStereo 48000) 0,
        Event.srcNew 2 2] = logPre ++ Event.sinkNegotiate outFmt 0 :: logPost ∧
      SUCCEEDED ((sinkAcceptingOnly 48000).NextSink_NegotiateFormat logPre outFmt 0) = true ∧
      (convertingStage 44100 48000).m_bPassThrough = false ∧
      (convertingStage 44100 48000).m_pInputFormat = some (floatStereo 44100) ∧
      (convertingStage 44100 48000).m_pOutputFormat = some outFmt ∧
      outFmt = withRate (floatStereo 44100) rate ∧
      outFmt.Format.nChannels = 2 ∧
      outFmt.Format.wBitsPerSample = 32 ∧
      outFmt.Format.nBlockAlign = 8 ∧
      outFmt.SubFormat = KSDATAFORMAT_SUBTYPE_IEEE_FLOAT ∧
      outFmt.Format.nSamplesPerSec = rate ∧
      outFmt.Format.nAvgBytesPerSec = (rate * 8) % 2 ^ 32 ∧
      (rate * 8 < 2 ^ 32 → outFmt.Format.nAvgBytesPerSec = rate * 8) ∧
      (convertingStage 44100 48000).m_nFrameSize = 8 ∧
      (44100 : Nat) ≠ 0 ∧
      (convertingStage 44100 48000).m_dSampleRateRation = (rate : ℚ) / ((44100 : Nat) : ℚ) :=
  ⟨rfl, rfl, rfl,
    C7_conversion_commit (sinkAcceptingOnly 48000) freshStage [] (floatStereo 44100) 1 S_OK
      (convertingStage 44100 48000)
      [Event.sinkNegotiate (floatStereo 44100) 0, Event.sinkNegotiate (floatStereo 48000) 0,
        Event.srcNew 2 2]
      (by decide) rfl (by decide) (by decide) (by decide) rfl (by decide)⟩

/-- Claim C8, evaluated on the code. The first `src_process` call reports error 7
and uses and produces nothing; `ProcessData` ignores the return code, calls
`src_process` a second time on the same input, takes that call's counters and
returns `S_OK`. -/
theorem C8_resampler_error_ignored :
    (resamplerFailingFirst.src_process [Event.requestBuffer 0] (some 1) 2 512 (1 / 2)).ret = 7 ∧
    ProcessData resamplerFailingFirst 2 (convertingStage 88200 44100) [] (some 0) 16 (some 0) =
      .ok (S_OK, some 8,
        { convertingStage 88200 44100 with
          m_pNextOutSample := some { size := 4096, actualDataLength := 8, timeStart := 0 }
          m_rtInSampleTime := 226 },
        [Event.requestBuffer 0, Event.srcProcess (some 1) 0 2 512,
         Event.srcProcess (some 1) 0 2 512]) :=
  ⟨rfl,
    (ProcessDataLoop_next resamplerFailingFirst 1
      { self := convertingStage 88200 44100, log := [], hr := S_OK, pData := 0, cbData := 16,
        bytesOutput := 0 }
      { self :=
          { convertingStage 88200 44100 with
            m_pNextOutSample := some { size := 4096, actualDataLength := 0, timeStart := 0 } }
        log := [Event.requestBuffer 0, Event.srcProcess (some 1) 0 2 512]
        hr := S_OK, pData := 0, cbData := 16, bytesOutput := 0 }
      (some 0) (by decide) rfl).trans rfl⟩

/-- Claim C9, evaluated on the code. Frame size 8, a 32-byte input, 8-byte
output buffers and a resampler of ratio 1/2: the first iteration uses two
frames and produces one, the full buffer is emitted, and the second buffer
request fails. The call returns the allocator's error and calls the resampler
no further, but the count written through `pcbDataProcessed` is 8 + 16 = 24
(bytes produced plus bytes left), short of the input length 32. -/
theorem C9_reported_count_on_allocator_failure :
    ProcessData allocatorFailingSecond 2 (convertingStage 88200 44100) [] (some 0) 32
        (some 0) =
      .ok (E_OUTOFMEMORY, some 24,
        { convertingStage 88200 44100 with m_rtInSampleTime := 226 },
        [Event.requestBuffer 0, Event.srcProcess (some 1) 0 4 1,
         Event.sinkPutSample { size := 8, actualDataLength := 8, timeStart := 0 },
         Event.requestBuffer 226]) ∧
    (24 : Int) < 32 :=
  ⟨rfl, by decide⟩

/-- Claim C10. A flush from any state returns, leaves no pending output buffer
and emits at most one buffer; every flush after it, whatever was logged in
between, writes 0 through `pcbDataProcessed`, leaves the stage as it is and adds
exactly one external call, the resampler reset (so it emits nothing). -/
theorem C10_flush_twice (env : Env) (fuel : Nat) (s : CSampleRateConverter) (log : List Event)
    (cbData : Int) (pcbDataProcessed : Option Int) :
    ∃ (hr1 : HRESULT) (s1 : CSampleRateConverter) (new1 : List Event),
      ProcessData env fuel s log none cbData pcbDataProcessed =
        .ok (hr1, pcbDataProcessed.map (fun _ => 0), s1, log ++ new1) ∧
      s1.m_pNextOutSample = none ∧
      emittedCount new1 ≤ 1 ∧
      ∀ (fuel2 : Nat) (log2 : List Event) (cbData2 : Int) (pcb2 : Option Int),
        ProcessData env fuel2 s1 log2 none cbData2 pcb2 =
          .ok (if env.src_reset log2 s1.m_pSrcState ≠ 0 then S_FALSE else S_OK,
               pcb2.map (fun _ => 0), s1, log2 ++ [Event.srcReset s1.m_pSrcState]) := by
  have second : ∀ (s1 : CSampleRateConverter), s1.m_pNextOutSample = none →
      ∀ (fuel2 : Nat) (log2 : List Event) (cbData2 : Int) (pcb2 : Option Int),
        ProcessData env fuel2 s1 log2 none cbData2 pcb2 =
          .ok (if env.src_reset log2 s1.m_pSrcState ≠ 0 then S_FALSE else S_OK,
               pcb2.map (fun _ => 0), s1, log2 ++ [Event.srcReset s1.m_pSrcState]) := by
    intro s1 h1 fuel2 log2 cbData2 pcb2
    simp only [ProcessData, ProcessDataFlush, h1, Option.isSome_none, Bool.false_eq_true, if_false]
    split <;> rfl
  cases hp : s.m_pNextOutSample with
  | none =>
    refine ⟨if env.src_reset log s.m_pSrcState ≠ 0 then S_FALSE else S_OK, s,
      [Event.srcReset s.m_pSrcState], ?_, hp, by simp [emittedCount], second s hp⟩
    rw [second s hp]
  | some sample =>
    refine ⟨if env.src_reset (log ++ [Event.sinkPutSample sample]) s.m_pSrcState ≠ 0 then S_FALSE
        else env.NextSink_PutSample log sample,
      { s with m_pNextOutSample := none },
      [Event.sinkPutSample sample, Event.srcReset s.m_pSrcState], ?_, rfl, by simp [emittedCount],
      second _ rfl⟩
    simp only [ProcessData, ProcessDataFlush, OutputNextSample, hp, Option.isSome_some, if_true]
    split <;> simp

/-! ## Lemmas on the loop body, the negotiation and the delivery -/

theorem ProcessDataBody_eq (env : Env) (v : LoopVars) (pcb : Option Int) :
    ProcessDataBody env v pcb =
      if (match v.self.m_pNextOutSample with
          | some sample =>
            if sample.actualDataLength + v.self.m_nFrameSize > sample.size then
              OutputNextSample env v.self v.log
            else (v.hr, v.self, v.log)
          | none => (v.hr, v.self, v.log)).2.1.m_pNextOutSample.isNone
          && FAILED (bodyPrepare env v).1 then
        .ok (BodyResult.done (bodyPrepare env v).1 (pcb.map (fun _ => v.bytesOutput + v.cbData))
          (bodyPrepare env v).2.1 (bodyPrepare env v).2.2)
      else
        match (bodyPrepare env v).2.1.m_pNextOutSample with
        | none => .error Fault.nullDeref
        | some sample =>
          bodyConvert env v (bodyPrepare env v).2.1 (bodyPrepare env v).2.2 sample pcb := rfl

theorem bodyConvert_next (env : Env) (v : LoopVars) (s2 : CSampleRateConverter)
    (log2 : List Event) (sample : IMediaSample) (pcb : Option Int) (v1 : LoopVars)
    (h : bodyConvert env v s2 log2 sample pcb = .ok (BodyResult.next v1)) :
    ∃ (outFmt : WAVEFORMATEXTENSIBLE) (data : SRC_RESULT),
      s2.m_nFrameSize ≠ 0 ∧
      s2.m_pOutputFormat = some outFmt ∧
      outFmt.Format.nAvgBytesPerSec ≠ 0 ∧
      data = env.src_process log2 s2.m_pSrcState (Int.tdiv v.cbData s2.m_nFrameSize)
        (Int.tdiv (sample.size - sample.actualDataLength) s2.m_nFrameSize)
        s2.m_dSampleRateRation ∧
      v1.hr = env.GetPointer log2 ∧
      v1.pData = v.pData + data.input_frames_used * s2.m_nFrameSize ∧
      v1.cbData = v.cbData - data.input_frames_used * s2.m_nFrameSize ∧
      v1.bytesOutput = v.bytesOutput + data.output_frames_gen * s2.m_nFrameSize ∧
      v1.self =
        { s2 with
          m_pNextOutSample :=
            if sample.actualDataLength + data.output_frames_gen * s2.m_nFrameSize
                + s2.m_nFrameSize > sample.size then none
            else some { sample with
              actualDataLength :=
                sample.actualDataLength + data.output_frames_gen * s2.m_nFrameSize }
          m_rtInSampleTime := s2.m_rtInSampleTime +
            Int.tdiv (data.output_frames_gen * s2.m_nFrameSize * UNITS)
              (outFmt.Format.nAvgBytesPerSec : Int) } ∧
      v1.log = log2 ++
        Event.srcProcess s2.m_pSrcState v.pData (Int.tdiv v.cbData s2.m_nFrameSize)
          (Int.tdiv (sample.size - sample.actualDataLength) s2.m_nFrameSize) ::
        (if sample.actualDataLength + data.output_frames_gen * s2.m_nFrameSize
              + s2.m_nFrameSize > sample.size then
          [Event.sinkPutSample { sample with
            actualDataLength :=
              sample.actualDataLength + data.output_frames_gen * s2.m_nFrameSize }]
         else []) := by
  unfold bodyConvert at h
  simp only at h
  by_cases hg : FAILED (env.GetPointer log2) = true
  · simp [hg] at h
  · rw [if_neg hg] at h
    by_cases hz : s2.m_nFrameSize = 0
    · simp [hz] at h
    · rw [if_neg hz] at h
      generalize hd : env.src_process log2 s2.m_pSrcState (Int.tdiv v.cbData s2.m_nFrameSize)
        (Int.tdiv (sample.size - sample.actualDataLength) s2.m_nFrameSize)
        s2.m_dSampleRateRation = data at h
      by_cases hfull : sample.actualDataLength + data.output_frames_gen * s2.m_nFrameSize
                + s2.m_nFrameSize > sample.size
      · simp only [hfull, if_true, OutputNextSample] at h
        cases ho : s2.m_pOutputFormat with
        | none => simp [ho] at h
        | some outFmt =>
          simp only [ho] at h
          by_cases ha : outFmt.Format.nAvgBytesPerSec = 0
          · simp [ha] at h
          · rw [if_neg ha] at h
            simp only [Except.ok.injEq, BodyResult.next.injEq] at h
            subst h
            exact ⟨outFmt, data, hz, rfl, ha, rfl, rfl, rfl, rfl, rfl, by simp [hfull, ho],
              by simp [hfull]⟩
      · simp only [hfull, if_false] at h
        cases ho : s2.m_pOutputFormat with
        | none => simp [ho] at h
        | some outFmt =>
          simp only [ho] at h
          by_cases ha : outFmt.Format.nAvgBytesPerSec = 0
          · simp [ha] at h
          · rw [if_neg ha] at h
            simp only [Except.ok.injEq, BodyResult.next.injEq] at h
            subst h
            exact ⟨outFmt, data, hz, rfl, ha, rfl, rfl, rfl, rfl, rfl, by simp [hfull, ho],
              by simp [hfull]⟩

theorem bodyPrepare_eq (env : Env) (v : LoopVars) :
    bodyPrepare env v =
      if needsRequest v then
        ((env.GetBuffer (v.log ++ emittedAtHead v) v.self.m_rtInSampleTime).1,
         { v.self with
           m_pNextOutSample :=
             if FAILED (env.GetBuffer (v.log ++ emittedAtHead v) v.self.m_rtInSampleTime).1
             then none
             else some { (env.GetBuffer (v.log ++ emittedAtHead v) v.self.m_rtInSampleTime).2
                         with timeStart := v.self.m_rtInSampleTime } },
         v.log ++ prepEvents v)
      else (v.hr, v.self, v.log) := by
  unfold bodyPrepare prepEvents needsRequest emittedAtHead
  cases hp : v.self.m_pNextOutSample with
  | none =>
    simp only [hp, Option.isNone_none, if_true, RequestNextOutBuffer, List.append_nil]
    split <;> simp [*]
    all_goals rw [← hp]
  | some b =>
    by_cases hfull : b.actualDataLength + v.self.m_nFrameSize > b.size
    · simp only [hfull, if_true, decide_True, OutputNextSample, hp, Option.isNone_none,
        RequestNextOutBuffer]
      split <;> simp [*]
    · simp only [hfull, if_false, decide_False, hp, Option.isNone_some, Bool.false_eq_true]

theorem needsRequest_false (v : LoopVars) (h : needsRequest v = false) :
    ∃ sample, v.self.m_pNextOutSample = some sample ∧
      sample.actualDataLength + v.self.m_nFrameSize ≤ sample.size := by
  unfold needsRequest at h
  cases hp : v.self.m_pNextOutSample with
  | none => simp [hp] at h
  | some b =>
    simp only [hp, decide_eq_false_iff_not, not_lt] at h
    exact ⟨b, rfl, h⟩

theorem ProcessDataBody_cases (env : Env) (v : LoopVars) (pcb : Option Int) :
    ProcessDataBody env v pcb =
      match bufferInUse env v with
      | none =>
        .ok (BodyResult.done
          (env.GetBuffer (v.log ++ emittedAtHead v) v.self.m_rtInSampleTime).1
          (pcb.map (fun _ => v.bytesOutput + v.cbData))
          { v.self with m_pNextOutSample := none } (v.log ++ prepEvents v))
      | some sample =>
        bodyConvert env v { v.self with m_pNextOutSample := some sample }
          (v.log ++ prepEvents v) sample pcb := by
  rw [ProcessDataBody_eq, bodyPrepare_eq]
  unfold bufferInUse
  cases hn : needsRequest v with
  | true =>
    have hr1 : (match v.self.m_pNextOutSample with
          | some sample =>
            if sample.actualDataLength + v.self.m_nFrameSize > sample.size then
              OutputNextSample env v.self v.log
            else (v.hr, v.self, v.log)
          | none => (v.hr, v.self, v.log)).2.1.m_pNextOutSample.isNone = true := by
      unfold needsRequest at hn
      cases hp : v.self.m_pNextOutSample with
      | none => simp [hp]
      | some b =>
        simp only [hp, decide_eq_true_eq] at hn
        simp [hn, OutputNextSample, hp]
    rw [hr1]
    by_cases hq : FAILED (env.GetBuffer (v.log ++ emittedAtHead v) v.self.m_rtInSampleTime).1
        = true
    · simp [hq]
    · simp [hq]
  | false =>
    obtain ⟨b, hp, hroom⟩ := needsRequest_false v hn
    have hr1 : (match v.self.m_pNextOutSample with
          | some sample =>
            if sample.actualDataLength + v.self.m_nFrameSize > sample.size then
              OutputNextSample env v.self v.log
            else (v.hr, v.self, v.log)
          | none => (v.hr, v.self, v.log)).2.1.m_pNextOutSample.isNone = false := by
      simp [hp, not_lt.mpr hroom]
    rw [hr1]
    simp only [hp, prepEvents, hn, Bool.false_and, Bool.false_eq_true, if_false,
      List.append_nil]
    congr 1
    rw [← hp]

/-- What one full run of the loop body does, in terms of the variables before it. -/
theorem ProcessDataBody_next (env : Env) (v v1 : LoopVars) (pcb : Option Int)
    (h : ProcessDataBody env v pcb = .ok (BodyResult.next v1)) :
    ∃ (sample : IMediaSample) (outFmt : WAVEFORMATEXTENSIBLE) (data : SRC_RESULT),
      bufferInUse env v = some sample ∧
      v.self.m_nFrameSize ≠ 0 ∧
      v.self.m_pOutputFormat = some outFmt ∧
      outFmt.Format.nAvgBytesPerSec ≠ 0 ∧
      data = env.src_process (v.log ++ prepEvents v) v.self.m_pSrcState
        (Int.tdiv v.cbData v.self.m_nFrameSize)
        (Int.tdiv (sample.size - sample.actualDataLength) v.self.m_nFrameSize)
        v.self.m_dSampleRateRation ∧
      v1.hr = env.GetPointer (v.log ++ prepEvents v) ∧
      v1.pData = v.pData + data.input_frames_used * v.self.m_nFrameSize ∧
      v1.cbData = v.cbData - data.input_frames_used * v.self.m_nFrameSize ∧
      v1.bytesOutput = v.bytesOutput + data.output_frames_gen * v.self.m_nFrameSize ∧
      v1.self =
        { v.self with
          m_pNextOutSample :=
            if sample.actualDataLength + data.output_frames_gen * v.self.m_nFrameSize
                + v.self.m_nFrameSize > sample.size then none
            else some { sample with
              actualDataLength :=
                sample.actualDataLength + data.output_frames_gen * v.self.m_nFrameSize }
          m_rtInSampleTime := v.self.m_rtInSampleTime +
            Int.tdiv (data.output_frames_gen * v.self.m_nFrameSize * UNITS)
              (outFmt.Format.nAvgBytesPerSec : Int) } ∧
      v1.log = v.log ++ prepEvents v ++
        Event.srcProcess v.self.m_pSrcState v.pData (Int.tdiv v.cbData v.self.m_nFrameSize)
          (Int.tdiv (sample.size - sample.actualDataLength) v.self.m_nFrameSize) ::
        (if sample.actualDataLength + data.output_frames_gen * v.self.m_nFrameSize
              + v.self.m_nFrameSize > sample.size then
          [Event.sinkPutSample { sample with
            actualDataLength :=
              sample.actualDataLength + data.output_frames_gen * v.self.m_nFrameSize }]
         else []) := by
  rw [ProcessDataBody_cases] at h
  cases hb : bufferInUse env v with
  | none => simp [hb] at h
  | some sample =>
    simp only [hb] at h
    obtain ⟨outFmt, data, h1, h2, h3, h4, h5, h6, h7, h8, h9, h10⟩ :=
      bodyConvert_next env v _ _ sample pcb v1 h
    exact ⟨sample, outFmt, data, rfl, h1, h2, h3, h4, h5, h6, h7, h8, h9, h10⟩

/-- The two ways the loop body returns early: a failed buffer request, or a
failed `GetPointer` on the buffer in use. -/
theorem ProcessDataBody_done (env : Env) (v : LoopVars) (pcb : Option Int)
    (hr : HRESULT) (c : Option Int) (s : CSampleRateConverter) (log : List Event)
    (h : ProcessDataBody env v pcb = .ok (BodyResult.done hr c s log)) :
    log = v.log ++ prepEvents v ∧
    ((bufferInUse env v = none ∧ s = { v.self with m_pNextOutSample := none } ∧
        c = pcb.map (fun _ => v.bytesOutput + v.cbData) ∧
        hr = (env.GetBuffer (v.log ++ emittedAtHead v) v.self.m_rtInSampleTime).1) ∨
      (∃ sample, bufferInUse env v = some sample ∧
        s = { v.self with m_pNextOutSample := some sample } ∧ c = pcb ∧
        hr = env.GetPointer (v.log ++ prepEvents v))) := by
  rw [ProcessDataBody_cases] at h
  cases hb : bufferInUse env v with
  | none =>
    simp only [hb, Except.ok.injEq, BodyResult.done.injEq] at h
    obtain ⟨h1, h2, h3, h4⟩ := h
    exact ⟨h4.symm, Or.inl ⟨rfl, h3.symm, h2.symm, h1.symm⟩⟩
  | some sample =>
    simp only [hb] at h
    unfold bodyConvert at h
    simp only at h
    by_cases hg : FAILED (env.GetPointer (v.log ++ prepEvents v)) = true
    · simp only [hg, if_true, Except.ok.injEq, BodyResult.done.injEq] at h
      obtain ⟨h1, h2, h3, h4⟩ := h
      exact ⟨h4.symm, Or.inr ⟨sample, rfl, h3.symm, h2.symm, h1.symm⟩⟩
    · rw [if_neg hg] at h
      split at h
      · simp at h
      · split at h
        · simp at h
        · split at h <;> simp at h

theorem probeLoop_log (env : Env) (wfx : WAVEFORMATEXTENSIBLE) (d : Int) :
    ∀ (remaining i : Nat) (hr : HRESULT) (pOut : WAVEFORMATEXTENSIBLE) (log : List Event)
      (hr' : HRESULT) (pOut' : WAVEFORMATEXTENSIBLE) (log' : List Event),
      probeLoop env wfx d remaining i hr pOut log = .ok (hr', pOut', log') →
      ∃ new : List Event, log' = log ++ new ∧ ∀ e ∈ new, ∃ w, e = Event.sinkNegotiate w d := by
  intro remaining
  induction remaining with
  | zero =>
    intro i hr pOut log hr' pOut' log' h
    simp [probeLoop] at h
    exact ⟨[], by simp [h.2.2], by simp⟩
  | succ k ih =>
    intro i hr pOut log hr' pOut' log' h
    unfold probeLoop at h
    split at h
    · split at h
      · exact ih _ _ _ _ _ _ _ h
      · split at h
        · simp at h
        · simp only at h
          obtain ⟨new, hnew, hall⟩ := ih _ _ _ _ _ _ _ h
          refine ⟨_ :: new, by rw [hnew, List.append_assoc]; rfl, ?_⟩
          intro e he
          rcases List.mem_cons.mp he with rfl | he
          · exact ⟨_, rfl⟩
          · exact hall e he
    · simp at h
      exact ⟨[], by simp [h.2.2], by simp⟩

/-- The three ways `NegotiateFormat` returns: nothing committed, pass-through
committed, conversion committed through `SetupConversion`. In each case the
call log grows by negotiation calls at the forwarded depth and resampler
housekeeping only. -/
theorem NegotiateFormat_shape (env : Env) (s : CSampleRateConverter) (log : List Event)
    (pwfx : Option WAVEFORMATEXTENSIBLE) (d : Int)
    (hr : HRESULT) (s' : CSampleRateConverter) (log' : List Event)
    (h : NegotiateFormat env s log pwfx d = .ok (hr, s', log')) :
    (∃ new : List Event, log' = log ++ new ∧ ∀ e ∈ new, NegotiationEvent (forwardedDepth d) e) ∧
    (s' = s ∨
      (∃ wfx, pwfx = some wfx ∧ d ≠ 0 ∧ SUCCEEDED hr = true ∧
        s' = { s with m_bPassThrough := true, m_pInputFormat := some wfx,
                      m_pOutputFormat := some wfx }) ∨
      (∃ wfx rate chan, pwfx = some wfx ∧ d ≠ 0 ∧ hr = S_OK ∧
        s' = { s with
               m_bPassThrough := false
               m_pInputFormat := some wfx
               m_pOutputFormat := some (withRate wfx rate)
               m_nBitsPerSample := 32
               m_nFrameSize := wfx.Format.nBlockAlign
               m_nBytesPerSample := wfx.Format.wBitsPerSample / 8
               m_dSampleRateRation := (rate : ℚ) / (wfx.Format.nSamplesPerSec : ℚ)
               m_pSrcState := chan })) := by
  unfold NegotiateFormat at h
  split at h
  · simp only [Except.ok.injEq, Prod.mk.injEq] at h
    exact ⟨⟨[], by simp [h.2.2], by simp⟩, Or.inl h.2.1.symm⟩
  · rename_i wfx
    split at h
    · simp only [Except.ok.injEq, Prod.mk.injEq] at h
      exact ⟨⟨[], by simp [h.2.2], by simp⟩, Or.inl h.2.1.symm⟩
    · split at h
      · simp only [Except.ok.injEq, Prod.mk.injEq] at h
        exact ⟨⟨[], by simp [h.2.2], by simp⟩, Or.inl h.2.1.symm⟩
      · simp only at h
        split at h
        · rename_i hacc
          split at h
          · rename_i hb
            simp only [Except.ok.injEq, Prod.mk.injEq] at h
            obtain ⟨h1, h2, h3⟩ := h
            refine ⟨⟨_, h3.symm, by simp [NegotiationEvent]⟩, Or.inr (Or.inl ⟨wfx, rfl, ?_, ?_, ?_⟩)⟩
            · simpa using hb
            · rw [← h1]; exact hacc
            · rw [← h2]; rfl
          · simp only [Except.ok.injEq, Prod.mk.injEq] at h
            exact ⟨⟨_, h.2.2.symm, by simp [NegotiationEvent]⟩, Or.inl h.2.1.symm⟩
        · split at h
          · simp only [Except.ok.injEq, Prod.mk.injEq] at h
            exact ⟨⟨_, h.2.2.symm, by simp [NegotiationEvent]⟩, Or.inl h.2.1.symm⟩
          · rename_i hfloat
            split at h
            · simp at h
            · split at h
              · simp at h
              · rename_i hr2 pOut log2 hloop
                obtain ⟨new, hnew, hall⟩ := probeLoop_log env wfx _ _ _ _ _ _ _ _ _ hloop
                have hlog2 : ∀ tail : List Event, (∀ e ∈ tail, NegotiationEvent (forwardedDepth d) e) →
                    ∃ new2 : List Event, log2 ++ tail = log ++ new2 ∧
                      ∀ e ∈ new2, NegotiationEvent (forwardedDepth d) e := by
                  intro tail htail
                  refine ⟨Event.sinkNegotiate wfx (forwardedDepth d) :: (new ++ tail), ?_, ?_⟩
                  · rw [hnew]; simp
                  · intro e he
                    rcases List.mem_cons.mp he with rfl | he
                    · simp [NegotiationEvent]
                    · rcases List.mem_append.mp he with he | he
                      · obtain ⟨w, rfl⟩ := hall e he
                        simp [NegotiationEvent]
                      · exact htail e he
                split at h
                · simp only [Except.ok.injEq, Prod.mk.injEq] at h
                  obtain ⟨new2, h2, h3⟩ := hlog2 [] (by simp)
                  rw [List.append_nil] at h2
                  exact ⟨⟨new2, by rw [← h.2.2, h2], h3⟩, Or.inl h.2.1.symm⟩
                · rename_i hf2
                  split at h
                  · rename_i hb
                    split at h
                    · simp at h
                    · rename_i hrS s3 log3 hsetup
                      simp only [Except.ok.injEq, Prod.mk.injEq] at h
                      obtain ⟨h1, h2, h3⟩ := h
                      subst h1 h2 h3
                      have hf2' : FAILED hr2 = false := by simpa using hf2
                      obtain ⟨rate, logPre, hmem, hpOut, -, -, -⟩ :=
                        probeLoop_accept env wfx _ _ _ _ _ _ _ _ _ (by decide) (by rfl) hloop hf2'
                      subst hpOut
                      obtain ⟨hl, hs3⟩ :=
                        SetupConversion_spec env _ _ _ _ _ wfx (withRate wfx rate) rfl rfl hsetup
                      obtain ⟨new2, h2, h3⟩ := hlog2 (setupEvents s wfx.Format.nChannels) (by
                        intro e he
                        unfold setupEvents at he
                        cases hst : s.m_pSrcState <;> simp [hst] at he <;>
                          rcases he with rfl | rfl <;> simp [NegotiationEvent])
                      refine ⟨⟨new2, ?_, h3⟩, Or.inr (Or.inr ⟨wfx, rate, _, rfl, ?_, rfl, hs3⟩)⟩
                      · rw [hl, ← h2]; rfl
                      · simpa using hb
                  · simp only [Except.ok.injEq, Prod.mk.injEq] at h
                    obtain ⟨new2, h2, h3⟩ := hlog2 [] (by simp)
                    rw [List.append_nil] at h2
                    exact ⟨⟨new2, by rw [← h.2.2, h2], h3⟩, Or.inl h.2.1.symm⟩

theorem ProcessDataFlush_spec (env : Env) (s : CSampleRateConverter) (log : List Event)
    (pcb : Option Int) :
    (ProcessDataFlush env s log pcb).2.1 = pcb.map (fun _ => 0) ∧
    (ProcessDataFlush env s log pcb).2.2.1 = { s with m_pNextOutSample := none } ∧
    (ProcessDataFlush env s log pcb).2.2.2 = log ++ flushEvents s := by
  unfold ProcessDataFlush flushEvents OutputNextSample
  cases hp : s.m_pNextOutSample with
  | none =>
    simp only [Option.isSome_none, Bool.false_eq_true, if_false, List.nil_append]
    refine ⟨by split <;> rfl, ?_, by split <;> rfl⟩
    split <;> (simp only; rw [← hp])
  | some b =>
    simp only [Option.isSome_some, if_true]
    refine ⟨by split <;> rfl, by split <;> rfl, by split <;> simp⟩

theorem PutSample_format_change (env : Env) (fuel : Nat) (s : CSampleRateConverter)
    (log : List Event) (sample : InputSample) (wfx : WAVEFORMATEXTENSIBLE)
    (hmt : sample.mediaType = some wfx)
    (hchg : FormatsEqual (some wfx) s.m_pInputFormat = false) :
    PutSample env fuel s log (some sample) =
      match NegotiateFormat env (beforeRenegotiation env s log sample).1
          (beforeRenegotiation env s log sample).2 (some wfx) 1 with
      | .error f => .error f
      | .ok (hr, s2, log2) =>
        if FAILED hr then .ok (hr, s2, log2) else PutSampleData env fuel s2 log2 sample := by
  unfold PutSample beforeRenegotiation
  simp only [hmt, hchg, Bool.not_false, if_true]
  cases hd : sample.isDiscontinuity <;> cases hpt : s.m_bPassThrough <;>
    simp [hpt, ProcessData]

/-- One iteration of the delivery loop of `PutSample`. -/
theorem PutSampleLoop_next (env : Env) (fuel : Nat) (pData cbSampleData : Int) (n : Nat)
    (s s1 : CSampleRateConverter) (log log1 : List Event) (hr hr1 : HRESULT) (nOffset : Int)
    (c : Option Int)
    (hcond : nOffset < cbSampleData ∧ SUCCEEDED hr = true)
    (hpd : ProcessData env fuel s log (some (pData + nOffset)) (cbSampleData - nOffset)
      (some 0) = .ok (hr1, c, s1, log1)) :
    PutSampleLoop env fuel pData cbSampleData (n + 1) s log hr nOffset =
      PutSampleLoop env fuel pData cbSampleData n s1 log1 hr1 (nOffset + c.getD 0) := by
  rw [PutSampleLoop, if_pos hcond]
  simp only [hpd]

theorem LoopTrace.prepend {env : Env} {pcb : Option Int} {v0 v1 v : LoopVars}
    {produced : List Int} (hcb : v0.cbData ≠ 0)
    (hbody : ProcessDataBody env v0 pcb = .ok (BodyResult.next v1))
    (ht : LoopTrace env pcb v1 v produced) :
    LoopTrace env pcb v0 v ((v1.bytesOutput - v0.bytesOutput) :: produced) := by
  induction ht with
  | start => exact LoopTrace.step LoopTrace.start hcb hbody
  | step _ hcb' hbody' ih => exact LoopTrace.step ih hcb' hbody'

/-- Every result of the loop of `ProcessData` comes from a run of full
iterations followed by the loop exit or by an early return of the body. -/
theorem ProcessDataLoop_trace (env : Env) (pcb : Option Int) :
    ∀ (fuel : Nat) (v0 : LoopVars)
      (r : HRESULT × Option Int × CSampleRateConverter × List Event),
      ProcessDataLoop env fuel v0 pcb = .ok r →
      ∃ (v : LoopVars) (produced : List Int), LoopTrace env pcb v0 v produced ∧
        ((v.cbData = 0 ∧ r = (v.hr, pcb.map (fun _ => v.bytesOutput), v.self, v.log)) ∨
          (v.cbData ≠ 0 ∧ ∃ hr c s log,
            ProcessDataBody env v pcb = .ok (BodyResult.done hr c s log) ∧
            r = (hr, c, s, log))) := by
  intro fuel
  induction fuel with
  | zero =>
    intro v0 r h
    unfold ProcessDataLoop at h
    by_cases hcb : v0.cbData = 0
    · simp only [hcb, if_true, Except.ok.injEq] at h
      exact ⟨v0, [], LoopTrace.start, Or.inl ⟨hcb, h.symm⟩⟩
    · simp [hcb] at h
  | succ n ih =>
    intro v0 r h
    unfold ProcessDataLoop at h
    by_cases hcb : v0.cbData = 0
    · simp only [hcb, if_true, Except.ok.injEq] at h
      exact ⟨v0, [], LoopTrace.start, Or.inl ⟨hcb, h.symm⟩⟩
    · simp only [hcb, if_false] at h
      cases hbody : ProcessDataBody env v0 pcb with
      | error f => simp [hbody] at h
      | ok b =>
        cases b with
        | done hr c s log =>
          simp only [hbody, Except.ok.injEq] at h
          exact ⟨v0, [], LoopTrace.start, Or.inr ⟨hcb, hr, c, s, log, hbody, h.symm⟩⟩
        | next v1 =>
          simp only [hbody] at h
          obtain ⟨v, produced, ht, hres⟩ := ih v1 r h
          exact ⟨v, _, LoopTrace.prepend hcb hbody ht, hres⟩

/-- The committed negotiation of 44.1 kHz stereo float on the fresh stage, with a
downstream that accepts 48 kHz only. -/
theorem stereo_commit :
    NegotiateFormat (sinkAcceptingOnly 48000) freshStage [] (some (floatStereo 44100)) 1 =
      .ok (S_OK, convertingStage 44100 48000,
        [Event.sinkNegotiate (floatStereo 44100) 0, Event.sinkNegotiate (floatStereo 48000) 0,
          Event.srcNew 2 2]) := rfl

/-- Two stereo frames leave an output buffer filled to 8 bytes. -/
theorem stereo_fill_8 :
    ProcessData (sinkAcceptingOnly 48000) 1 (convertingStage 44100 48000)
        [Event.sinkNegotiate (floatStereo 44100) 0, Event.sinkNegotiate (floatStereo 48000) 0,
          Event.srcNew 2 2] (some 0) 16 (some 0) =
      .ok (S_OK, some 8, stereoStageWithPending 8 208, stereoLog 2) := rfl

/-- The committed negotiation of 5.1 float while the 8-byte buffer is pending. -/
theorem surround_commit_8 :
    NegotiateFormat (sinkAcceptingOnly 48000) (stereoStageWithPending 8 208) (stereoLog 2)
        (some (floatSurround 44100)) 1 =
      .ok (S_OK, surroundStageWithPending 8 208, surroundLog 2) := rfl

/-- One iteration on two 5.1 frames with the 8-byte buffer pending. -/
theorem surround_iteration_8 :
    ProcessDataBody (sinkAcceptingOnly 48000)
        (loopEntry (surroundStageWithPending 8 208) (surroundLog 2) 0 48) (some 0) =
      .ok (BodyResult.next
        { self := surroundStageWithPending 32 416
          log := surroundLog 2 ++ [Event.srcProcess (some 1) 0 2 170]
          hr := S_OK, pData := 48, cbData := 0, bytesOutput := 24 }) := rfl

theorem halvingResampler_within_offer (log : List Event) (state : Option Nat) (i o : Int)
    (ratio : ℚ) : (halvingResampler log state i o ratio).input_frames_used ≤ i :=
  min_le_left _ _

theorem halvingResampler_within_capacity (log : List Event) (state : Option Nat) (i o : Int)
    (ratio : ℚ) : (halvingResampler log state i o ratio).output_frames_gen ≤ o := by
  show min i (2 * o) / 2 ≤ o
  have h : min i (2 * o) ≤ 2 * o := min_le_right _ _
  omega

/-! ## The claims, continued -/

/-- Claim C11. One full run of the loop body, with a resampler that reports
non-negative output counts and a non-negative frame size: the output format's
byte rate is positive, and with `framesProduced` the count `output_frames_gen`
the resampler reported in this iteration (the one that `bytesOutput` is
advanced by), the timestamp afterwards is the timestamp before plus
`framesProduced * frameSize * UNITS / avgBytesPerSec` (truncating division),
and it is not smaller than before. -/
theorem C11_timestamp_advance (env : Env) (v v1 : LoopVars) (pcb : Option Int)
    (hgen : ∀ (log : List Event) (state : Option Nat) (i o : Int) (ratio : ℚ),
      0 ≤ (env.src_process log state i o ratio).output_frames_gen)
    (hfs : 0 ≤ v.self.m_nFrameSize)
    (h : ProcessDataBody env v pcb = .ok (BodyResult.next v1)) :
    ∃ framesProduced : Int,
      (∃ (log : List Event) (i o : Int),
        framesProduced = (env.src_process log v.self.m_pSrcState i o
          v.self.m_dSampleRateRation).output_frames_gen) ∧
      v1.bytesOutput = v.bytesOutput + framesProduced * v.self.m_nFrameSize ∧
      0 < outputAvgBytesPerSec v.self ∧
      v1.self.m_rtInSampleTime = v.self.m_rtInSampleTime +
        Int.tdiv (framesProduced * v.self.m_nFrameSize * UNITS) (outputAvgBytesPerSec v.self) ∧
      v.self.m_rtInSampleTime ≤ v1.self.m_rtInSampleTime := by
  obtain ⟨sample, outFmt, data, -, -, hout, havg, hdata, -, -, -, hbo, hself, -⟩ :=
    ProcessDataBody_next env v v1 pcb h
  have havg' : outputAvgBytesPerSec v.self = (outFmt.Format.nAvgBytesPerSec : Int) := by
    simp [outputAvgBytesPerSec, hout]
  have hpos : (0 : Int) < (outFmt.Format.nAvgBytesPerSec : Int) := by
    exact_mod_cast Nat.pos_of_ne_zero havg
  have hg : 0 ≤ data.output_frames_gen := by rw [hdata]; exact hgen _ _ _ _ _
  have hrt : v1.self.m_rtInSampleTime = v.self.m_rtInSampleTime +
      Int.tdiv (data.output_frames_gen * v.self.m_nFrameSize * UNITS)
        (outFmt.Format.nAvgBytesPerSec : Int) := by
    rw [hself]
  refine ⟨data.output_frames_gen, ⟨_, _, _, by rw [hdata]⟩, hbo, ?_, ?_, ?_⟩
  · rw [havg']; exact hpos
  · rw [havg']; exact hrt
  · rw [hrt]
    have : 0 ≤ Int.tdiv (data.output_frames_gen * v.self.m_nFrameSize * UNITS)
        (outFmt.Format.nAvgBytesPerSec : Int) :=
      Int.tdiv_nonneg (Int.mul_nonneg (Int.mul_nonneg hg hfs) (by decide)) (le_of_lt hpos)
    linarith

/-- Claim C11 at the first iteration of a 16-byte call in the conversion 88200 Hz
to 44100 Hz: one frame of 8 bytes is produced, the timestamp goes from 0 to
8 * UNITS / 352800 = 226. -/
theorem C11_timestamp_advance_witness :
    (0 : Int) ≤ (loopEntry (convertingStage 88200 44100) [] 0 16).self.m_nFrameSize ∧
    ProcessDataBody clampingEnv (loopEntry (convertingStage 88200 44100) [] 0 16) (some 0) =
      .ok (BodyResult.next afterOneIteration) ∧
    ∃ framesProduced : Int,
      (∃ (log : List Event) (i o : Int),
        framesProduced = (clampingEnv.src_process log
          (loopEntry (convertingStage 88200 44100) [] 0 16).self.m_pSrcState i o
          (loopEntry (convertingStage 88200 44100) [] 0 16).self.m_dSampleRateRation
          ).output_frames_gen) ∧
      afterOneIteration.bytesOutput =
        (loopEntry (convertingStage 88200 44100) [] 0 16).bytesOutput +
          framesProduced * (loopEntry (convertingStage 88200 44100) [] 0 16).self.m_nFrameSize ∧
      0 < outputAvgBytesPerSec (loopEntry (convertingStage 88200 44100) [] 0 16).self ∧
      afterOneIteration.self.m_rtInSampleTime =
        (loopEntry (convertingStage 88200 44100) [] 0 16).self.m_rtInSampleTime +
          Int.tdiv
            (framesProduced * (loopEntry (convertingStage 88200 44100) [] 0 16).self.m_nFrameSize
              * UNITS)
            (outputAvgBytesPerSec (loopEntry (convertingStage 88200 44100) [] 0 16).self) ∧
      (loopEntry (convertingStage 88200 44100) [] 0 16).self.m_rtInSampleTime ≤
        afterOneIteration.self.m_rtInSampleTime :=
  ⟨by decide, rfl,
    C11_timestamp_advance clampingEnv (loopEntry (convertingStage 88200 44100) [] 0 16)
      afterOneIteration (some 0)
      (fun _ _ _ _ _ => Int.ediv_nonneg (le_max_left 0 _) (by decide)) (by decide) rfl⟩

theorem beforeRenegotiation_fields (env : Env) (s : CSampleRateConverter) (log : List Event)
    (sample : InputSample) :
    (beforeRenegotiation env s log sample).1.m_bPassThrough = s.m_bPassThrough ∧
    (beforeRenegotiation env s log sample).1.m_pInputFormat = s.m_pInputFormat ∧
    (beforeRenegotiation env s log sample).1.m_pOutputFormat = s.m_pOutputFormat ∧
    (beforeRenegotiation env s log sample).1.m_pSrcState = s.m_pSrcState ∧
    (beforeRenegotiation env s log sample).1.m_pNextSink = s.m_pNextSink ∧
    (s.m_bPassThrough = false →
      (beforeRenegotiation env s log sample).1.m_pNextOutSample = none ∧
      (beforeRenegotiation env s log sample).2 = log ++ flushEvents s) ∧
    (s.m_bPassThrough = true → (beforeRenegotiation env s log sample).2 = log) := by
  unfold beforeRenegotiation
  cases hd : sample.isDiscontinuity <;> cases hpt : s.m_bPassThrough <;>
    simp [hpt, (ProcessDataFlush_spec env _ log none).2.1,
      (ProcessDataFlush_spec env _ log none).2.2, flushEvents]

/-- Claim C12. A buffer whose format differs from the active input format, and
whose renegotiation (depth 1, after the flush that precedes it outside
pass-through mode) fails: `PutSample` returns the negotiation's failure code,
the pass-through flag, both formats and the resampler handle are as before the
call, and no external call of the whole `PutSample` hands input data to the
resampler or forwards the buffer downstream. -/
theorem C12_failed_renegotiation_rejects_buffer (env : Env) (fuel : Nat)
    (s : CSampleRateConverter) (log : List Event) (sample : InputSample)
    (wfx : WAVEFORMATEXTENSIBLE) (hrN : HRESULT) (sN : CSampleRateConverter)
    (logN : List Event)
    (hmt : sample.mediaType = some wfx)
    (hchg : FormatsEqual (some wfx) s.m_pInputFormat = false)
    (hneg : NegotiateFormat env (beforeRenegotiation env s log sample).1
      (beforeRenegotiation env s log sample).2 (some wfx) 1 = .ok (hrN, sN, logN))
    (hfail : FAILED hrN = true) :
    PutSample env fuel s log (some sample) = .ok (hrN, sN, logN) ∧
    sN.m_bPassThrough = s.m_bPassThrough ∧
    sN.m_pInputFormat = s.m_pInputFormat ∧
    sN.m_pOutputFormat = s.m_pOutputFormat ∧
    sN.m_pSrcState = s.m_pSrcState ∧
    ∃ new : List Event, logN = log ++ new ∧ ∀ e ∈ new, ¬ DataEvent e := by
  obtain ⟨⟨new, hnew, hall⟩, hshape⟩ := NegotiateFormat_shape env _ _ _ _ _ _ _ hneg
  obtain ⟨f1, f2, f3, f4, -, f6, f7⟩ := beforeRenegotiation_fields env s log sample
  have hnot : ¬ (SUCCEEDED hrN = true) := by
    simp only [FAILED, decide_eq_true_eq] at hfail
    simp only [SUCCEEDED, decide_eq_true_eq, not_le]
    exact hfail
  have hsN : sN = (beforeRenegotiation env s log sample).1 := by
    rcases hshape with h1 | ⟨_, _, _, h2, _⟩ | ⟨_, _, _, _, _, h3, _⟩
    · exact h1
    · exact absurd h2 hnot
    · rw [h3] at hnot
      exact absurd (by decide) hnot
  refine ⟨?_, ?_, ?_, ?_, ?_, ?_⟩
  · rw [PutSample_format_change env fuel s log sample wfx hmt hchg, hneg]
    simp [hfail]
  · rw [hsN]; exact f1
  · rw [hsN]; exact f2
  · rw [hsN]; exact f3
  · rw [hsN]; exact f4
  · have hneg_no : ∀ e ∈ new, ¬ DataEvent e := by
      intro e he hde
      have := hall e he
      cases e <;> simp [NegotiationEvent, DataEvent] at this hde
    cases hpt : s.m_bPassThrough with
    | true =>
      refine ⟨new, ?_, hneg_no⟩
      rw [hnew, f7 hpt]
    | false =>
      refine ⟨flushEvents s ++ new, ?_, ?_⟩
      · rw [hnew, (f6 hpt).2, List.append_assoc]
      · intro e he
        rcases List.mem_append.mp he with he | he
        · intro hde
          unfold flushEvents at he
          cases hp : s.m_pNextOutSample <;> simp [hp] at he <;>
            rcases he with rfl | rfl <;> simp [DataEvent] at hde
        · exact hneg_no e he

/-- Claim C12 in the conversion 44100 Hz to 48000 Hz, for a buffer declared as
32 kHz with a downstream that rejects every rate of the table: the flush resets
the resampler, the pass-through attempt and the seven probes fail, and
`PutSample` returns `VFW_E_TYPE_NOT_ACCEPTED` with the stage as before. -/
theorem C12_failed_renegotiation_rejects_buffer_witness :
    sampleWithNewFormat.mediaType = some (floatStereo 32000) ∧
    FormatsEqual (some (floatStereo 32000)) (convertingStage 44100 48000).m_pInputFormat
      = false ∧
    FAILED VFW_E_TYPE_NOT_ACCEPTED = true ∧
    PutSample (sinkAcceptingOnly 11025) 1 (convertingStage 44100 48000) []
        (some sampleWithNewFormat) =
      .ok (VFW_E_TYPE_NOT_ACCEPTED, convertingStage 44100 48000,
        Event.srcReset (some 1) :: Event.sinkNegotiate (floatStereo 32000) 0 ::
          [44100, 48000, 88200, 96000, 192000, 32000, 44100].map
            (fun rate => Event.sinkNegotiate (withRate (floatStereo 32000) rate) 0)) :=
  ⟨rfl, by decide, by decide,
    (C12_failed_renegotiation_rejects_buffer (sinkAcceptingOnly 11025) 1
      (convertingStage 44100 48000) [] sampleWithNewFormat (floatStereo 32000)
      VFW_E_TYPE_NOT_ACCEPTED (convertingStage 44100 48000)
      (Event.srcReset (some 1) :: Event.sinkNegotiate (floatStereo 32000) 0 ::
          [44100, 48000, 88200, 96000, 192000, 32000, 44100].map
            (fun rate => Event.sinkNegotiate (withRate (floatStereo 32000) rate) 0))
      rfl (by decide) rfl (by decide)).1⟩

/-- Claim C13. A buffer whose format differs from the active input format,
arriving outside pass-through mode: at the moment `NegotiateFormat` is called
the call log is the log before followed by the emission of the pending buffer
(if any) and the resampler reset, and no buffer is pending; `PutSample` is what
follows from that negotiation; and when the negotiation returns, still no
buffer is pending and what it added to the log are negotiation calls at depth 0
and resampler housekeeping, all after the flush. -/
theorem C13_flush_before_renegotiation (env : Env) (fuel : Nat)
    (s : CSampleRateConverter) (log : List Event) (sample : InputSample)
    (wfx : WAVEFORMATEXTENSIBLE)
    (hmt : sample.mediaType = some wfx)
    (hchg : FormatsEqual (some wfx) s.m_pInputFormat = false)
    (hconv : s.m_bPassThrough = false) :
    (beforeRenegotiation env s log sample).1.m_pNextOutSample = none ∧
    (beforeRenegotiation env s log sample).2 = log ++ flushEvents s ∧
    PutSample env fuel s log (some sample) =
      (match NegotiateFormat env (beforeRenegotiation env s log sample).1
          (log ++ flushEvents s) (some wfx) 1 with
        | .error f => .error f
        | .ok (hr, s2, log2) =>
          if FAILED hr then .ok (hr, s2, log2) else PutSampleData env fuel s2 log2 sample) ∧
    ∀ (hr : HRESULT) (s2 : CSampleRateConverter) (log2 : List Event),
      NegotiateFormat env (beforeRenegotiation env s log sample).1
          (log ++ flushEvents s) (some wfx) 1 = .ok (hr, s2, log2) →
        s2.m_pNextOutSample = none ∧
        ∃ new : List Event, log2 = log ++ flushEvents s ++ new ∧
          ∀ e ∈ new, NegotiationEvent 0 e := by
  obtain ⟨-, -, -, -, -, f6, -⟩ := beforeRenegotiation_fields env s log sample
  obtain ⟨hpend, hlog⟩ := f6 hconv
  refine ⟨hpend, hlog, ?_, ?_⟩
  · rw [PutSample_format_change env fuel s log sample wfx hmt hchg, hlog]
  · intro hr s2 log2 hneg
    obtain ⟨⟨new, hnew, hall⟩, hshape⟩ := NegotiateFormat_shape env _ _ _ _ _ _ _ hneg
    refine ⟨?_, new, hnew, hall⟩
    rcases hshape with h1 | ⟨_, _, _, _, h2⟩ | ⟨_, _, _, _, _, _, h3⟩
    · rw [h1]; exact hpend
    · rw [h2]; exact hpend
    · rw [h3]; exact hpend

/-- Claim C13 for a stage that holds a pending buffer when a buffer declared as
32 kHz arrives: the pending buffer is emitted and the resampler reset before the
negotiation, which starts with no buffer pending. -/
theorem C13_flush_before_renegotiation_witness :
    sampleWithNewFormat.mediaType = some (floatStereo 32000) ∧
    FormatsEqual (some (floatStereo 32000)) stageWithPending.m_pInputFormat = false ∧
    stageWithPending.m_bPassThrough = false ∧
    (beforeRenegotiation (sinkAcceptingOnly 11025) stageWithPending [] sampleWithNewFormat
      ).1.m_pNextOutSample = none ∧
    (beforeRenegotiation (sinkAcceptingOnly 11025) stageWithPending [] sampleWithNewFormat).2 =
      [Event.sinkPutSample { size := 4096, actualDataLength := 8, timeStart := 0 },
        Event.srcReset (some 1)] :=
  ⟨rfl, by decide, rfl,
    (C13_flush_before_renegotiation (sinkAcceptingOnly 11025) 1 stageWithPending []
      sampleWithNewFormat (floatStereo 32000) rfl (by decide) rfl).1,
    (C13_flush_before_renegotiation (sinkAcceptingOnly 11025) 1 stageWithPending []
      sampleWithNewFormat (floatStereo 32000) rfl (by decide) rfl).2.1⟩

theorem NegotiateFormat_reaches_sink (env : Env) (s : CSampleRateConverter) (log : List Event)
    (wfx : WAVEFORMATEXTENSIBLE) (d : Int)
    (hr : HRESULT) (s' : CSampleRateConverter) (log' : List Event)
    (hne : FormatsEqual (some wfx) s.m_pInputFormat = false)
    (hsink : s.m_pNextSink = true)
    (h : NegotiateFormat env s log (some wfx) d = .ok (hr, s', log')) :
    ∃ rest : List Event, log' = log ++ Event.sinkNegotiate wfx (forwardedDepth d) :: rest ∧
      ∀ e ∈ rest, NegotiationEvent (forwardedDepth d) e := by
  have hns : (!s.m_pNextSink) = false := by simp [hsink]
  unfold NegotiateFormat at h
  simp only [hne, hns, Bool.false_eq_true, if_false] at h
  split at h
  · split at h <;>
      (simp only [Except.ok.injEq, Prod.mk.injEq] at h
       exact ⟨[], by simp [h.2.2], by simp⟩)
  · split at h
    · simp only [Except.ok.injEq, Prod.mk.injEq] at h
      exact ⟨[], by simp [h.2.2], by simp⟩
    · split at h
      · simp at h
      · split at h
        · simp at h
        · rename_i hr2 pOut log2 hloop
          obtain ⟨new, hnew, hall⟩ := probeLoop_log env wfx _ _ _ _ _ _ _ _ _ hloop
          have hall' : ∀ e ∈ new, NegotiationEvent (forwardedDepth d) e := by
            intro e he
            obtain ⟨w, rfl⟩ := hall e he
            simp [NegotiationEvent]
          split at h
          · simp only [Except.ok.injEq, Prod.mk.injEq] at h
            exact ⟨new, by rw [← h.2.2, hnew]; simp, hall'⟩
          · split at h
            · split at h
              · simp at h
              · rename_i hrS s3 log3 hsetup
                simp only [Except.ok.injEq, Prod.mk.injEq] at h
                obtain ⟨h1, h2, h3⟩ := h
                subst h1 h2 h3
                unfold SetupConversion at hsetup
                simp only [SetInputFormat, SetOutputFormat] at hsetup
                refine ⟨new ++ setupEvents s wfx.Format.nChannels, ?_, ?_⟩
                · cases hst : s.m_pSrcState <;>
                    (simp only [hst] at hsetup
                     split at hsetup <;>
                      (simp only [Except.ok.injEq, Prod.mk.injEq] at hsetup
                       rw [← hsetup.2.2, hnew]
                       simp [setupEvents, hst]))
                · intro e he
                  rcases List.mem_append.mp he with he | he
                  · exact hall' e he
                  · unfold setupEvents at he
                    cases hst : s.m_pSrcState <;> simp [hst] at he <;>
                      rcases he with rfl | rfl <;> simp [NegotiationEvent]
            · simp only [Except.ok.injEq, Prod.mk.injEq] at h
              exact ⟨new, by rw [← h.2.2, hnew]; simp, hall'⟩

/-- Claim C14. A call with depth `d` that reaches the downstream (non-null
candidate that differs from the active input format, sink attached): the first
external call is the pass-through attempt and every downstream negotiation of
the call carries the same depth `forwardedDepth d`, which is `d - 1` when
`d > 0` and `d` is not `INFINITE`, and `d` otherwise (so 0 for `d = 1`); and
when the call succeeds it commits (the candidate becomes the active input
format and the stage changes) if `d` is not 0, and leaves the stage as it was
if `d` is 0; the stage changes in no other case. -/
theorem C14_depth_forwarding (env : Env) (s : CSampleRateConverter) (log : List Event)
    (wfx : WAVEFORMATEXTENSIBLE) (d : Int)
    (hr : HRESULT) (s' : CSampleRateConverter) (log' : List Event)
    (hne : FormatsEqual (some wfx) s.m_pInputFormat = false)
    (hsink : s.m_pNextSink = true)
    (h : NegotiateFormat env s log (some wfx) d = .ok (hr, s', log')) :
    (∃ rest : List Event, log' = log ++ Event.sinkNegotiate wfx (forwardedDepth d) :: rest ∧
      ∀ (w : WAVEFORMATEXTENSIBLE) (d' : Int),
        Event.sinkNegotiate w d' ∈ rest → d' = forwardedDepth d) ∧
    forwardedDepth d = (if 0 < d ∧ d ≠ INFINITE then d - 1 else d) ∧
    forwardedDepth 1 = 0 ∧
    (SUCCEEDED hr = true →
      (d ≠ 0 → s'.m_pInputFormat = some wfx ∧ s' ≠ s) ∧ (d = 0 → s' = s)) ∧
    (s' ≠ s → d ≠ 0 ∧ SUCCEEDED hr = true) := by
  obtain ⟨rest, hrest, hall⟩ := NegotiateFormat_reaches_sink env s log wfx d hr s' log' hne hsink h
  obtain ⟨-, hshape⟩ := NegotiateFormat_shape env _ _ _ _ _ _ _ h
  have hin : s.m_pInputFormat ≠ some wfx := by
    intro hcon
    simp [FormatsEqual, hcon] at hne
  refine ⟨⟨rest, hrest, fun w d' hmem => hall _ hmem⟩, ?_, by decide, ?_, ?_⟩
  · unfold forwardedDepth
    by_cases hc : 0 < d ∧ d ≠ INFINITE
    · rw [if_pos hc, if_pos ⟨hc.2, hc.1⟩]
    · rw [if_neg hc, if_neg (fun hc' => hc ⟨hc'.2, hc'.1⟩)]
  · intro hok
    constructor
    · intro hd
      have hcommit : s'.m_pInputFormat = some wfx := by
        by_cases hacc : SUCCEEDED (env.NextSink_NegotiateFormat log wfx (forwardedDepth d)) = true
        · simp [NegotiateFormat, hne, hsink, hd, hacc, SetInputFormat, SetOutputFormat] at h
          rw [← h.2.1]
        · have hrej : SUCCEEDED (env.NextSink_NegotiateFormat log wfx (forwardedDepth d)) = false := by
            simpa using hacc
          by_cases hfloat : wfx.SubFormat = KSDATAFORMAT_SUBTYPE_IEEE_FLOAT
          · obtain ⟨rate, logPre, hrS, -, -, -, hsetup⟩ :=
              NegotiateFormat_commits_conversion env s log wfx d hr s' log'
                hd hfloat hne hsink hrej h hok
            obtain ⟨-, hs3⟩ :=
              SetupConversion_spec env _ _ _ _ _ wfx (withRate wfx rate) rfl rfl hsetup
            rw [hs3]; rfl
          · have hns : (!s.m_pNextSink) = false := by simp [hsink]
            unfold NegotiateFormat at h
            simp only [hne, hns, hrej, Bool.false_eq_true, if_false] at h
            rw [if_pos hfloat] at h
            simp only [Except.ok.injEq, Prod.mk.injEq] at h
            rw [← h.1] at hok
            exact absurd hok (by decide)
      exact ⟨hcommit, fun hcon => hin (by rw [← hcon]; exact hcommit)⟩
    · intro hd
      rcases hshape with h1 | ⟨_, _, h2, _⟩ | ⟨_, _, _, _, h3, _⟩
      · exact h1
      · exact absurd hd h2
      · exact absurd hd h3
  · intro hchange
    rcases hshape with h1 | ⟨_, _, h2, h2', _⟩ | ⟨_, _, _, _, h3, h3', _⟩
    · exact absurd h1 hchange
    · exact ⟨h2, h2'⟩
    · exact ⟨h3, by rw [h3']; decide⟩

/-- Claim C14 at the spec's scenario: 44.1 kHz stereo float, depth 1, a downstream
that accepts 48 kHz only. Both downstream negotiations carry depth 0. -/
theorem C14_depth_forwarding_witness :
    FormatsEqual (some (floatStereo 44100)) freshStage.m_pInputFormat = false ∧
    freshStage.m_pNextSink = true ∧
    NegotiateFormat (sinkAcceptingOnly 48000) freshStage [] (some (floatStereo 44100)) 1 =
      .ok (S_OK, convertingStage 44100 48000,
        [Event.sinkNegotiate (floatStereo 44100) 0, Event.sinkNegotiate (floatStereo 48000) 0,
          Event.srcNew 2 2]) ∧
    ∃ rest : List Event,
      [Event.sinkNegotiate (floatStereo 44100) 0, Event.sinkNegotiate (floatStereo 48000) 0,
          Event.srcNew 2 2] =
        [] ++ Event.sinkNegotiate (floatStereo 44100) (forwardedDepth 1) :: rest ∧
      ∀ (w : WAVEFORMATEXTENSIBLE) (d' : Int),
        Event.sinkNegotiate w d' ∈ rest → d' = forwardedDepth 1 :=
  ⟨by decide, rfl, rfl,
    (C14_depth_forwarding (sinkAcceptingOnly 48000) freshStage [] (floatStereo 44100) 1 S_OK
      (convertingStage 44100 48000)
      [Event.sinkNegotiate (floatStereo 44100) 0, Event.sinkNegotiate (floatStereo 48000) 0,
        Event.srcNew 2 2]
      (by decide) rfl rfl).1⟩

/-- Claim C15, evaluated on the code. With the table 22050, 32000, 44100, 48000,
88200, 96000, 192000 and a downstream that accepts exactly 22050 Hz, a 96000 Hz
float candidate is rejected unchanged. The order the claim describes is 192000,
22050, cut off there. The code probes 192000, 32000, 44100, 48000, 88200, 96000,
192000: it never reads index 0 after the wrap, it probes the candidate's own
rate, and it probes 192000 twice. -/
theorem C15_probe_order_is_not_circular :
    (sinkAcceptingOnly 22050).gAllowedSampleRates.length = 7 ∧
    (∀ rate ∈ (sinkAcceptingOnly 22050).gAllowedSampleRates, rate ≠ 0) ∧
    (floatStereo 96000).SubFormat = KSDATAFORMAT_SUBTYPE_IEEE_FLOAT ∧
    (floatStereo 96000).Format.nSamplesPerSec ≠ 0 ∧
    SUCCEEDED ((sinkAcceptingOnly 22050).NextSink_NegotiateFormat [] (floatStereo 96000) 0)
      = false ∧
    cutAfterAccepted (fun rate => decide (rate = 22050))
      (specProbeOrder (sinkAcceptingOnly 22050).gAllowedSampleRates 96000) = [192000, 22050] ∧
    (∃ log : List Event,
      NegotiateFormat (sinkAcceptingOnly 22050) freshStage [] (some (floatStereo 96000)) 1 =
        .ok (VFW_E_TYPE_NOT_ACCEPTED, freshStage, Event.sinkNegotiate (floatStereo 96000) 0 :: log) ∧
      negotiatedRates log = [192000, 32000, 44100, 48000, 88200, 96000, 192000]) :=
  ⟨rfl, by decide, rfl, by decide, by decide, by decide, _, rfl, by decide⟩

theorem bufferInUse_cases (env : Env) (v : LoopVars) (sample : IMediaSample)
    (h : bufferInUse env v = some sample) :
    (needsRequest v = false ∧ v.self.m_pNextOutSample = some sample ∧
      sample.actualDataLength + v.self.m_nFrameSize ≤ sample.size) ∨
    (needsRequest v = true ∧ ∃ logReq : List Event,
      FAILED (env.GetBuffer logReq v.self.m_rtInSampleTime).1 = false ∧
      sample = { (env.GetBuffer logReq v.self.m_rtInSampleTime).2 with
                  timeStart := v.self.m_rtInSampleTime }) := by
  unfold bufferInUse at h
  cases hn : needsRequest v with
  | false =>
    simp only [hn, Bool.false_eq_true, if_false] at h
    obtain ⟨b, hb, hroom⟩ := needsRequest_false v hn
    rw [hb] at h
    cases h
    exact Or.inl ⟨rfl, hb, hroom⟩
  | true =>
    simp only [hn, if_true] at h
    by_cases hq : FAILED (env.GetBuffer (v.log ++ emittedAtHead v) v.self.m_rtInSampleTime).1
        = true
    · simp [hq] at h
    · have hq' : FAILED (env.GetBuffer (v.log ++ emittedAtHead v) v.self.m_rtInSampleTime).1
          = false := by simpa using hq
      rw [hq'] at h
      simp only [Bool.false_eq_true, if_false, Option.some.injEq] at h
      exact Or.inr ⟨rfl, _, hq', h.symm⟩

theorem LoopTrace_frameSize {env : Env} {pcb : Option Int} {v0 v : LoopVars}
    {produced : List Int} (ht : LoopTrace env pcb v0 v produced) :
    v.self.m_nFrameSize = v0.self.m_nFrameSize ∧
    v.self.m_pOutputFormat = v0.self.m_pOutputFormat := by
  induction ht with
  | start => exact ⟨rfl, rfl⟩
  | step _ _ hbody ih =>
    obtain ⟨_, _, _, -, -, -, -, -, -, -, -, -, hself, -⟩ := ProcessDataBody_next _ _ _ _ hbody
    rw [hself]
    exact ih

/-- One full iteration keeps the input left a whole number of frames; with a
resampler that uses at most the frames offered the input left afterwards is not
negative. -/
theorem input_step (env : Env) (pcb : Option Int) (fs : Int) (v v1 : LoopVars)
    (hfs : 0 < fs) (hv : v.self.m_nFrameSize = fs) (hdvd : fs ∣ v.cbData)
    (hbody : ProcessDataBody env v pcb = .ok (BodyResult.next v1)) :
    fs ∣ v1.cbData ∧
    ((∀ (log : List Event) (state : Option Nat) (i o : Int) (ratio : ℚ),
      (env.src_process log state i o ratio).input_frames_used ≤ i) → 0 ≤ v1.cbData) := by
  obtain ⟨sample, outFmt, data, -, -, -, -, hdata, -, -, hcb, -, -, -⟩ :=
    ProcessDataBody_next _ _ _ _ hbody
  rw [hv] at hcb hdata
  refine ⟨?_, ?_⟩
  · rw [hcb]
    exact Int.dvd_sub hdvd (Dvd.intro_left _ rfl)
  · intro hused
    have hu : data.input_frames_used ≤ Int.tdiv v.cbData fs := by
      rw [hdata]; exact hused _ _ _ _ _
    have hdiv : Int.tdiv v.cbData fs * fs = v.cbData := by
      obtain ⟨c, hc⟩ := hdvd
      rw [hc, Int.mul_tdiv_cancel_left _ (ne_of_gt hfs), mul_comm]
    rw [hcb]
    have : data.input_frames_used * fs ≤ Int.tdiv v.cbData fs * fs :=
      Int.mul_le_mul_of_nonneg_right hu (le_of_lt hfs)
    linarith

/-- One full iteration entered with the pending buffer filled to a whole number
of frames leaves it so. -/
theorem pending_step (env : Env) (pcb : Option Int) (fs : Int) (v v1 : LoopVars)
    (hv : v.self.m_nFrameSize = fs)
    (hpend : ∀ sample, v.self.m_pNextOutSample = some sample → fs ∣ sample.actualDataLength)
    (hfresh : ∀ (log : List Event) (rtStart : Int),
      FAILED (env.GetBuffer log rtStart).1 = false →
      (env.GetBuffer log rtStart).2.actualDataLength = 0)
    (hbody : ProcessDataBody env v pcb = .ok (BodyResult.next v1)) :
    ∀ sample, v1.self.m_pNextOutSample = some sample → fs ∣ sample.actualDataLength := by
  obtain ⟨sample, outFmt, data, hbuf, -, -, -, -, -, -, -, -, hself, -⟩ :=
    ProcessDataBody_next _ _ _ _ hbody
  rw [hv] at hself
  have hsample : fs ∣ sample.actualDataLength := by
    rcases bufferInUse_cases env v sample hbuf with ⟨-, hp, -⟩ | ⟨-, logReq, hok, hs⟩
    · exact hpend sample hp
    · rw [hs]
      simp only
      rw [hfresh _ _ hok]
      exact Int.dvd_zero _
  intro b hb
  rw [hself] at hb
  simp only at hb
  split at hb
  · simp at hb
  · simp only [Option.some.injEq] at hb
    rw [← hb]
    simp only
    exact Int.dvd_add hsample (Dvd.intro_left _ rfl)

/-- Full iterations keep the input left a whole number of frames. -/
theorem LoopTrace_input_aligned (env : Env) (pcb : Option Int) (fs : Int) {v0 v : LoopVars}
    {produced : List Int} (hfs : 0 < fs)
    (ht : LoopTrace env pcb v0 v produced)
    (h0 : v0.self.m_nFrameSize = fs) (hdvd : fs ∣ v0.cbData) : fs ∣ v.cbData := by
  induction ht with
  | start => exact hdvd
  | @step va vb pr hta _ hb ih =>
    exact (input_step env pcb fs va vb hfs ((LoopTrace_frameSize hta).1.trans h0) ih hb).1

/-- Full iterations keep the pending fill offset a whole number of frames. -/
theorem LoopTrace_pending_aligned (env : Env) (pcb : Option Int) (fs : Int)
    {v0 v : LoopVars} {produced : List Int}
    (hfresh : ∀ (log : List Event) (rtStart : Int),
      FAILED (env.GetBuffer log rtStart).1 = false →
      (env.GetBuffer log rtStart).2.actualDataLength = 0)
    (ht : LoopTrace env pcb v0 v produced)
    (h0 : v0.self.m_nFrameSize = fs)
    (hpend : ∀ sample, v0.self.m_pNextOutSample = some sample →
      fs ∣ sample.actualDataLength) :
    ∀ sample, v.self.m_pNextOutSample = some sample → fs ∣ sample.actualDataLength := by
  induction ht with
  | start => exact hpend
  | @step va vb pr hta _ hb ih =>
    exact pending_step env pcb fs va vb ((LoopTrace_frameSize hta).1.trans h0) ih hfresh hb

/-- Claim C16 fails as stated. A fresh stage commits 44.1 kHz stereo float
(frame size 8), converts two frames, which leaves an output buffer filled to 8
bytes, and then commits 5.1 float (frame size 24); `NegotiateFormat` does not
flush the pending buffer. The next `ProcessData` call has a positive frame size,
an input of 48 bytes (two frames), an allocator whose buffers start at fill
offset 0 and a resampler that uses at most the frames offered and produces at
most the capacity offered. Its first iteration leaves the pending buffer filled
to 32 bytes, which is not a multiple of 24. -/
theorem C16_pending_fill_after_frame_size_change :
    NegotiateFormat (sinkAcceptingOnly 48000) freshStage [] (some (floatStereo 44100)) 1 =
      .ok (S_OK, convertingStage 44100 48000,
        [Event.sinkNegotiate (floatStereo 44100) 0, Event.sinkNegotiate (floatStereo 48000) 0,
          Event.srcNew 2 2]) ∧
    ProcessData (sinkAcceptingOnly 48000) 1 (convertingStage 44100 48000)
        [Event.sinkNegotiate (floatStereo 44100) 0, Event.sinkNegotiate (floatStereo 48000) 0,
          Event.srcNew 2 2] (some 0) 16 (some 0) =
      .ok (S_OK, some 8, stereoStageWithPending 8 208, stereoLog 2) ∧
    NegotiateFormat (sinkAcceptingOnly 48000) (stereoStageWithPending 8 208) (stereoLog 2)
        (some (floatSurround 44100)) 1 =
      .ok (S_OK, surroundStageWithPending 8 208, surroundLog 2) ∧
    (surroundStageWithPending 8 208).m_nFrameSize = 24 ∧
    (24 : Int) ∣ 48 ∧
    (∀ (log : List Event) (rtStart : Int),
      ((sinkAcceptingOnly 48000).GetBuffer log rtStart).2.actualDataLength = 0) ∧
    (∀ (log : List Event) (state : Option Nat) (i o : Int) (ratio : ℚ),
      ((sinkAcceptingOnly 48000).src_process log state i o ratio).input_frames_used ≤ i) ∧
    (∀ (log : List Event) (state : Option Nat) (i o : Int) (ratio : ℚ),
      ((sinkAcceptingOnly 48000).src_process log state i o ratio).output_frames_gen ≤ o) ∧
    (∃ v1 : LoopVars,
      ProcessDataBody (sinkAcceptingOnly 48000)
          (loopEntry (surroundStageWithPending 8 208) (surroundLog 2) 0 48) (some 0) =
        .ok (BodyResult.next v1) ∧
      v1.self.m_nFrameSize = 24 ∧
      v1.self.m_pNextOutSample =
        some { size := 4096, actualDataLength := 32, timeStart := 0 } ∧
      ¬ ((24 : Int) ∣ 32)) :=
  ⟨stereo_commit, stereo_fill_8, surround_commit_8, rfl, ⟨2, rfl⟩, fun _ _ => rfl,
    halvingResampler_within_offer, halvingResampler_within_capacity,
    ⟨_, surround_iteration_8, rfl, rfl, by decide⟩⟩

/-- Claim C16 as the code has it. A `ProcessData` call on non-null data whose
length is a multiple of the positive frame size, with a resampler that uses at
most the frames offered: after every full iteration of the loop (`v1`, reached
by one iteration from the variables `v` that any number of earlier iterations
lead to) the frame size is unchanged, the input left is a multiple of it, and
the input left is zero or at least one frame. If moreover new buffers start at
fill offset 0 and the call was entered with no pending buffer or with one filled
to a multiple of the frame size, the fill offset of the pending buffer is a
multiple of the frame size after the iteration as well. -/
theorem C16_frame_alignment (env : Env) (s : CSampleRateConverter) (log : List Event)
    (pData cbData : Int) (pcb : Option Int) (v v1 : LoopVars) (produced : List Int)
    (hfs : 0 < s.m_nFrameSize)
    (hmul : s.m_nFrameSize ∣ cbData)
    (hused : ∀ (log : List Event) (state : Option Nat) (i o : Int) (ratio : ℚ),
      (env.src_process log state i o ratio).input_frames_used ≤ i)
    (ht : LoopTrace env pcb (loopEntry s log pData cbData) v produced)
    (hbody : ProcessDataBody env v pcb = .ok (BodyResult.next v1)) :
    v1.self.m_nFrameSize = s.m_nFrameSize ∧
    s.m_nFrameSize ∣ v1.cbData ∧
    (v1.cbData = 0 ∨ s.m_nFrameSize ≤ v1.cbData) ∧
    ((∀ (log : List Event) (rtStart : Int),
        FAILED (env.GetBuffer log rtStart).1 = false →
        (env.GetBuffer log rtStart).2.actualDataLength = 0) →
      (∀ sample, s.m_pNextOutSample = some sample →
        s.m_nFrameSize ∣ sample.actualDataLength) →
      ∀ sample, v1.self.m_pNextOutSample = some sample →
        s.m_nFrameSize ∣ sample.actualDataLength) := by
  have hv : v.self.m_nFrameSize = s.m_nFrameSize := (LoopTrace_frameSize ht).1
  have hv1 : v1.self.m_nFrameSize = s.m_nFrameSize := by
    obtain ⟨_, _, _, -, -, -, -, -, -, -, -, -, hself, -⟩ := ProcessDataBody_next _ _ _ _ hbody
    rw [hself]
    exact hv
  have hin : s.m_nFrameSize ∣ v.cbData :=
    LoopTrace_input_aligned env pcb s.m_nFrameSize hfs ht rfl hmul
  obtain ⟨k1, k3⟩ := input_step env pcb s.m_nFrameSize v v1 hfs hv hin hbody
  have k0 := k3 hused
  refine ⟨hv1, k1, ?_, ?_⟩
  · by_cases hz : v1.cbData = 0
    · exact Or.inl hz
    · right
      obtain ⟨c, hc⟩ := k1
      have hcpos : 0 < c := by
        rcases lt_trichotomy c 0 with hneg | hzero | hpos
        · have : s.m_nFrameSize * c < 0 := Int.mul_neg_of_pos_of_neg hfs hneg
          linarith
        · rw [hzero, mul_zero] at hc; exact absurd hc hz
        · exact hpos
      rw [hc]
      nlinarith
  · intro hfresh hpend
    exact pending_step env pcb s.m_nFrameSize v v1 hv
      (LoopTrace_pending_aligned env pcb s.m_nFrameSize hfresh ht rfl hpend) hfresh hbody

/-- Claim C16 as the code has it, at the first iteration of a 16-byte call with
frame size 8 and the halving resampler: both frames are used, no input is left,
and the pending buffer, requested in this iteration, is filled to 8 bytes. -/
theorem C16_frame_alignment_witness :
    (0 : Int) < (convertingStage 88200 44100).m_nFrameSize ∧
    (convertingStage 88200 44100).m_nFrameSize ∣ (16 : Int) ∧
    ProcessDataBody (sinkAcceptingOnly 44100) (loopEntry (convertingStage 88200 44100) [] 0 16)
      (some 0) = .ok (BodyResult.next afterOneIteration) ∧
    afterOneIteration.self.m_nFrameSize = (convertingStage 88200 44100).m_nFrameSize ∧
    (convertingStage 88200 44100).m_nFrameSize ∣ afterOneIteration.cbData ∧
    (afterOneIteration.cbData = 0 ∨
      (convertingStage 88200 44100).m_nFrameSize ≤ afterOneIteration.cbData) ∧
    (∀ sample, afterOneIteration.self.m_pNextOutSample = some sample →
      (convertingStage 88200 44100).m_nFrameSize ∣ sample.actualDataLength) := by
  have h := C16_frame_alignment (sinkAcceptingOnly 44100) (convertingStage 88200 44100) [] 0 16
    (some 0) (loopEntry (convertingStage 88200 44100) [] 0 16) afterOneIteration []
    (by decide) ⟨2, rfl⟩ halvingResampler_within_offer LoopTrace.start rfl
  exact ⟨by decide, ⟨2, rfl⟩, rfl, h.1, h.2.1, h.2.2.1,
    h.2.2.2 (fun _ _ _ => rfl) (fun _ hp => nomatch hp)⟩

theorem advanceByIterations_append (avg : Int) (l : List Int) (b : Int) :
    advanceByIterations avg (l ++ [b]) =
      advanceByIterations avg l + Int.tdiv (b * UNITS) avg := by
  simp [advanceByIterations]

/-- Truncating each summand separately loses less than one unit per summand. -/
theorem advanceByIterations_bounds (avg : Int) (havg : 0 < avg) :
    ∀ (l : List Int), (∀ b ∈ l, 0 ≤ b) →
      0 ≤ l.sum ∧
      avg * advanceByIterations avg l ≤ l.sum * UNITS ∧
      l.sum * UNITS + l.length ≤ avg * advanceByIterations avg l + l.length * avg := by
  intro l
  induction l with
  | nil => intro _; simp [advanceByIterations]
  | cons b l ih =>
    intro hl
    have hb : 0 ≤ b := hl b (List.mem_cons_self _ _)
    obtain ⟨i0, i1, i2⟩ := ih (fun x hx => hl x (List.mem_cons_of_mem _ hx))
    have hx : 0 ≤ b * UNITS := Int.mul_nonneg hb (by decide)
    have e1 : Int.tdiv (b * UNITS) avg = (b * UNITS) / avg :=
      Int.tdiv_eq_ediv hx (le_of_lt havg)
    have q1 : (b * UNITS) / avg * avg ≤ b * UNITS := Int.ediv_mul_le _ (ne_of_gt havg)
    have q2 : b * UNITS < ((b * UNITS) / avg + 1) * avg := Int.lt_ediv_add_one_mul_self _ havg
    have hadv : advanceByIterations avg (b :: l) =
        (b * UNITS) / avg + advanceByIterations avg l := by
      simp [advanceByIterations, e1]
    rw [hadv]
    simp only [List.sum_cons, List.length_cons, Nat.cast_add, Nat.cast_one]
    refine ⟨by linarith, by nlinarith, by nlinarith⟩

theorem LoopTrace_clock (env : Env) (pcb : Option Int) {v0 v : LoopVars}
    {produced : List Int}
    (hgen : ∀ (log : List Event) (state : Option Nat) (i o : Int) (ratio : ℚ),
      0 ≤ (env.src_process log state i o ratio).output_frames_gen)
    (hfs : 0 ≤ v0.self.m_nFrameSize)
    (ht : LoopTrace env pcb v0 v produced) :
    v.bytesOutput = v0.bytesOutput + produced.sum ∧
    v.self.m_rtInSampleTime = v0.self.m_rtInSampleTime +
      advanceByIterations (outputAvgBytesPerSec v0.self) produced ∧
    (∀ b ∈ produced, 0 ≤ b) ∧
    (produced ≠ [] → 0 < outputAvgBytesPerSec v0.self) := by
  induction ht with
  | start => exact ⟨by simp, by simp [advanceByIterations], by simp, by simp⟩
  | @step va vb pr hta _ hb ih =>
    obtain ⟨i1, i2, i3, -⟩ := ih
    obtain ⟨hfsa, hfmt⟩ := LoopTrace_frameSize hta
    obtain ⟨sample, outFmt, data, -, -, hout, havg, hdata, -, -, -, hbo, hself, -⟩ :=
      ProcessDataBody_next _ _ _ _ hb
    have havg0 : outputAvgBytesPerSec v0.self = (outFmt.Format.nAvgBytesPerSec : Int) := by
      simp [outputAvgBytesPerSec, ← hfmt, hout]
    have hpos : (0 : Int) < (outFmt.Format.nAvgBytesPerSec : Int) := by
      exact_mod_cast Nat.pos_of_ne_zero havg
    have hg : 0 ≤ data.output_frames_gen := by rw [hdata]; exact hgen _ _ _ _ _
    have hdiff : vb.bytesOutput - va.bytesOutput = data.output_frames_gen * va.self.m_nFrameSize := by
      rw [hbo]; ring
    have hrt : vb.self.m_rtInSampleTime = va.self.m_rtInSampleTime +
        Int.tdiv (data.output_frames_gen * va.self.m_nFrameSize * UNITS)
          (outFmt.Format.nAvgBytesPerSec : Int) := by
      rw [hself]
    refine ⟨?_, ?_, ?_, ?_⟩
    · rw [List.sum_append, List.sum_singleton, ← add_assoc, ← i1]; ring
    · rw [advanceByIterations_append, hrt, i2, hdiff, havg0]; ring
    · intro b hbm
      rcases List.mem_append.mp hbm with h1 | h1
      · exact i3 b h1
      · rw [List.mem_singleton] at h1
        rw [h1, hdiff]
        exact Int.mul_nonneg hg (by rw [hfsa]; exact hfs)
    · intro _
      rw [havg0]; exact hpos

/-- Claim C17, evaluated on the code. Frame size 8, output byte rate 352800, a
32-byte input, 8-byte output buffers and a resampler of ratio 1/2: the call runs
two iterations, each produces 8 bytes and advances the timestamp by
8 * UNITS / 352800 = 226, so the call advances it by 452, while the 16 bytes
produced, converted once, are 16 * UNITS / 352800 = 453 time units. -/
theorem C17_two_iterations_lose_a_unit :
    ProcessData eightByteBuffers 2 (convertingStage 88200 44100) [] (some 0) 32 (some 0) =
      .ok (S_OK, some 16,
        { convertingStage 88200 44100 with m_rtInSampleTime := 452 },
        [Event.requestBuffer 0, Event.srcProcess (some 1) 0 4 1,
         Event.sinkPutSample { size := 8, actualDataLength := 8, timeStart := 0 },
         Event.requestBuffer 226, Event.srcProcess (some 1) 16 2 1,
         Event.sinkPutSample { size := 8, actualDataLength := 8, timeStart := 226 }]) ∧
    (convertingStage 88200 44100).m_rtInSampleTime = 0 ∧
    outputAvgBytesPerSec (convertingStage 88200 44100) = 352800 ∧
    Int.tdiv (16 * UNITS) 352800 = 453 ∧
    (452 : Int) - 0 ≠ 453 :=
  ⟨(ProcessDataLoop_next eightByteBuffers 1
      { self := convertingStage 88200 44100, log := [], hr := S_OK, pData := 0, cbData := 32,
        bytesOutput := 0 }
      { self := { convertingStage 88200 44100 with m_rtInSampleTime := 226 }
        log := [Event.requestBuffer 0, Event.srcProcess (some 1) 0 4 1,
          Event.sinkPutSample { size := 8, actualDataLength := 8, timeStart := 0 }]
        hr := S_OK, pData := 16, cbData := 16, bytesOutput := 8 }
      (some 0) (by decide) rfl).trans rfl,
   rfl, rfl, by decide, by decide⟩

/-- Claim C17 as the code has it. For every `ProcessData` call that returns,
with a resampler that reports non-negative output counts and a non-negative
frame size: the timestamp advance of the call is the sum, over the iterations of
its loop, of the bytes produced in the iteration converted to time units with
truncating division (`advanceByIterations`); `produced` lists those byte
counts (none for a flush) and sums to `bytesOutput`. The advance is at most the
total converted once, and when there was an iteration it falls short of it by
less than one time unit per iteration. -/
theorem C17_advance_is_sum_over_iterations (env : Env) (fuel : Nat)
    (s : CSampleRateConverter) (log : List Event) (pData : Option Int) (cbData : Int)
    (pcb : Option Int) (r : HRESULT × Option Int × CSampleRateConverter × List Event)
    (hgen : ∀ (log : List Event) (state : Option Nat) (i o : Int) (ratio : ℚ),
      0 ≤ (env.src_process log state i o ratio).output_frames_gen)
    (hfs : 0 ≤ s.m_nFrameSize)
    (h : ProcessData env fuel s log pData cbData pcb = .ok r) :
    ∃ produced : List Int,
      (pData = none → produced = []) ∧
      (∀ p, pData = some p →
        ∃ v, LoopTrace env pcb (loopEntry s log p cbData) v produced ∧
          v.bytesOutput = produced.sum ∧
          r.2.2.1.m_rtInSampleTime = v.self.m_rtInSampleTime) ∧
      (∀ b ∈ produced, 0 ≤ b) ∧
      r.2.2.1.m_rtInSampleTime - s.m_rtInSampleTime =
        advanceByIterations (outputAvgBytesPerSec s) produced ∧
      advanceByIterations (outputAvgBytesPerSec s) produced ≤
        Int.tdiv (produced.sum * UNITS) (outputAvgBytesPerSec s) ∧
      (produced ≠ [] →
        Int.tdiv (produced.sum * UNITS) (outputAvgBytesPerSec s) <
          advanceByIterations (outputAvgBytesPerSec s) produced + produced.length) := by
  cases pData with
  | none =>
    refine ⟨[], fun _ => rfl, fun p hp => (by cases hp), (by simp), ?_,
      (by simp [advanceByIterations]), fun hne => absurd rfl hne⟩
    simp only [ProcessData, Except.ok.injEq] at h
    rw [← h, (ProcessDataFlush_spec env s log pcb).2.1]
    simp [advanceByIterations]
  | some p =>
    obtain ⟨v, produced, ht, hres⟩ :=
      ProcessDataLoop_trace env pcb fuel (loopEntry s log p cbData) r h
    obtain ⟨c1, c2, c3, c4⟩ := LoopTrace_clock env pcb hgen hfs ht
    have hrt : r.2.2.1.m_rtInSampleTime = v.self.m_rtInSampleTime := by
      rcases hres with ⟨-, hr⟩ | ⟨-, hr1, c, s1, log1, hbody, hr⟩
      · rw [hr]
      · obtain ⟨-, hcase⟩ := ProcessDataBody_done _ _ _ _ _ _ _ hbody
        rw [hr]
        rcases hcase with ⟨-, hs, -⟩ | ⟨sample, -, hs, -⟩ <;> rw [hs]
    have c1' : v.bytesOutput = produced.sum := by
      rw [c1]; simp [loopEntry]
    have c2' : v.self.m_rtInSampleTime = s.m_rtInSampleTime +
        advanceByIterations (outputAvgBytesPerSec s) produced := c2
    refine ⟨produced, fun hp => (by cases hp), ?_, c3, (by rw [hrt, c2']; ring), ?_, ?_⟩
    · intro p' hp'
      cases hp'
      exact ⟨v, ht, c1', hrt⟩
    · by_cases hne : produced = []
      · rw [hne]; simp [advanceByIterations]
      · have havg : 0 < outputAvgBytesPerSec s := c4 hne
        obtain ⟨b0, b1, -⟩ := advanceByIterations_bounds _ havg produced c3
        rw [Int.tdiv_eq_ediv (Int.mul_nonneg b0 (by decide)) (le_of_lt havg)]
        exact Int.le_ediv_of_mul_le havg (by rw [mul_comm]; exact b1)
    · intro hne
      have havg : 0 < outputAvgBytesPerSec s := c4 hne
      obtain ⟨b0, -, b2⟩ := advanceByIterations_bounds _ havg produced c3
      rw [Int.tdiv_eq_ediv (Int.mul_nonneg b0 (by decide)) (le_of_lt havg)]
      have hlen : (0 : Int) < produced.length := by
        have : 0 < produced.length := List.length_pos.mpr hne
        exact_mod_cast this
      apply Int.ediv_lt_of_lt_mul havg
      nlinarith

/-- Claim C17 as the code has it, at a 16-byte call in the conversion 88200 Hz
to 44100 Hz with 4096-byte buffers: one iteration, 8 bytes produced, advance 226. -/
theorem C17_advance_is_sum_over_iterations_witness :
    (0 : Int) ≤ (convertingStage 88200 44100).m_nFrameSize ∧
    ProcessData clampingEnv 1 (convertingStage 88200 44100) [] (some 0) 16 (some 0) =
      .ok (S_OK, some 8, afterOneIteration.self, afterOneIteration.log) ∧
    ∃ produced : List Int,
      afterOneIteration.self.m_rtInSampleTime - (convertingStage 88200 44100).m_rtInSampleTime =
        advanceByIterations (outputAvgBytesPerSec (convertingStage 88200 44100)) produced ∧
      advanceByIterations (outputAvgBytesPerSec (convertingStage 88200 44100)) produced ≤
        Int.tdiv (produced.sum * UNITS) (outputAvgBytesPerSec (convertingStage 88200 44100)) :=
  ⟨by decide, rfl,
    (C17_advance_is_sum_over_iterations clampingEnv 1 (convertingStage 88200 44100) [] (some 0)
      16 (some 0) (S_OK, some 8, afterOneIteration.self, afterOneIteration.log)
      (fun _ _ _ _ _ => Int.ediv_nonneg (le_max_left 0 _) (by decide)) (by decide) rfl).elim
      (fun produced h => ⟨produced, h.2.2.2.1, h.2.2.2.2.1⟩)⟩

/-- Claim C18, evaluated on the code. With the table 22050, 32000, 44100, 48000,
88200, 96000, 192000 a 192000 Hz float candidate that the downstream rejects
unchanged is found at index 6, the start point becomes 7, and the first
iteration of the probing loop reads `gAllowedSampleRates[7]`, past the end of
the table. -/
theorem C18_table_read_past_the_end :
    (sinkAcceptingOnly 48000).gAllowedSampleRates.length = 7 ∧
    (sinkAcceptingOnly 48000).gAllowedSampleRates[6]? = some 192000 ∧
    searchStartPoint (sinkAcceptingOnly 48000).gAllowedSampleRates 192000 sampleRateCount 0 =
      .ok (7, true) ∧
    (sinkAcceptingOnly 48000).gAllowedSampleRates[7]? = none ∧
    NegotiateFormat (sinkAcceptingOnly 48000) freshStage [] (some (floatStereo 192000)) 1 =
      .error Fault.outOfBounds :=
  ⟨rfl, rfl, rfl, rfl, rfl⟩

/-- A buffer without a new format, not marked as a discontinuity, outside
pass-through mode: `PutSample` takes the buffer's start time and enters the
delivery loop. -/
theorem PutSample_convert (env : Env) (fuel : Nat) (s : CSampleRateConverter)
    (log : List Event) (sample : InputSample)
    (hmt : sample.mediaType = none) (hd : sample.isDiscontinuity = false)
    (hpt : s.m_bPassThrough = false) :
    PutSample env fuel s log (some sample) =
      PutSampleLoop env fuel sample.pData sample.actualDataLength fuel
        { s with m_rtInSampleTime := sample.timeStart.getD s.m_rtInSampleTime } log
        sample.pointerResult 0 := by
  simp [PutSample, PutSampleData, hmt, hd, hpt]

/-- The first `ProcessData` call of `PutSample` on `twoFrameSample`: both frames
are used, one is produced, 8 is reported. -/
theorem streamingEnv_first_call :
    ProcessData streamingEnv 3 (convertingStage 88200 44100) [] (some (0 + 0)) (16 - 0)
        (some 0) =
      .ok (S_OK, some 8,
        { convertingStage 88200 44100 with
          m_pNextOutSample := some { size := 4096, actualDataLength := 8, timeStart := 0 }
          m_rtInSampleTime := 226 },
        [Event.requestBuffer 0, Event.srcProcess (some 1) 0 2 512]) := rfl

/-- The second call: the frame at offset 8 is used, nothing is produced, 0 is
reported. -/
theorem streamingEnv_second_call :
    ProcessData streamingEnv 3
        { convertingStage 88200 44100 with
          m_pNextOutSample := some { size := 4096, actualDataLength := 8, timeStart := 0 }
          m_rtInSampleTime := 226 }
        [Event.requestBuffer 0, Event.srcProcess (some 1) 0 2 512] (some (0 + 8)) (16 - 8)
        (some 0) =
      .ok (S_OK, some 0,
        { convertingStage 88200 44100 with
          m_pNextOutSample := some { size := 4096, actualDataLength := 8, timeStart := 0 }
          m_rtInSampleTime := 226 },
        [Event.requestBuffer 0, Event.srcProcess (some 1) 0 2 512,
          Event.srcProcess (some 1) 8 1 511]) := rfl

/-- The third call: the frame at offset 8 is used again, one frame is produced,
8 is reported. -/
theorem streamingEnv_third_call :
    ProcessData streamingEnv 3
        { convertingStage 88200 44100 with
          m_pNextOutSample := some { size := 4096, actualDataLength := 8, timeStart := 0 }
          m_rtInSampleTime := 226 }
        [Event.requestBuffer 0, Event.srcProcess (some 1) 0 2 512,
          Event.srcProcess (some 1) 8 1 511] (some (0 + 8)) (16 - 8) (some 0) =
      .ok (S_OK, some 8,
        { convertingStage 88200 44100 with
          m_pNextOutSample := some { size := 4096, actualDataLength := 16, timeStart := 0 }
          m_rtInSampleTime := 452 },
        [Event.requestBuffer 0, Event.srcProcess (some 1) 0 2 512,
          Event.srcProcess (some 1) 8 1 511, Event.srcProcess (some 1) 8 1 511]) := rfl

/-- Claim C19, evaluated on the code. Conversion 88200 Hz to 44100 Hz, frame
size 8, a 16-byte buffer (two frames) without format change, allocator and
downstream succeed, and the resampler uses every frame offered. `PutSample`
calls `ProcessData` three times, at input offsets 0, 8 and 8: the first call
uses both frames and reports 8 (the bytes produced), so the second frame is
offered again; that call produces nothing and reports 0, so it is offered a
third time. The resampler has used 4 frames where the buffer holds 2. -/
theorem C19_input_frames_fed_again :
    twoFrameSample.actualDataLength = 16 ∧
    (convertingStage 88200 44100).m_nFrameSize = 8 ∧
    (convertingStage 88200 44100).m_bPassThrough = false ∧
    (∀ (log : List Event) (state : Option Nat) (i o : Int) (ratio : ℚ),
      (streamingEnv.src_process log state i o ratio).input_frames_used ≤ i) ∧
    (∃ s : CSampleRateConverter,
      PutSample streamingEnv 3 (convertingStage 88200 44100) [] (some twoFrameSample) =
        .ok (S_OK, s,
          [Event.requestBuffer 0, Event.srcProcess (some 1) 0 2 512,
           Event.srcProcess (some 1) 8 1 511, Event.srcProcess (some 1) 8 1 511])) ∧
    framesOffered [Event.requestBuffer 0, Event.srcProcess (some 1) 0 2 512,
      Event.srcProcess (some 1) 8 1 511, Event.srcProcess (some 1) 8 1 511] = 4 ∧
    Int.tdiv twoFrameSample.actualDataLength (convertingStage 88200 44100).m_nFrameSize = 2 := by
  have h0 : PutSample streamingEnv 3 (convertingStage 88200 44100) [] (some twoFrameSample) =
      PutSampleLoop streamingEnv 3 0 16 3 (convertingStage 88200 44100) [] S_OK 0 :=
    PutSample_convert streamingEnv 3 (convertingStage 88200 44100) [] twoFrameSample rfl rfl rfl
  have h1 : PutSampleLoop streamingEnv 3 0 16 3 (convertingStage 88200 44100) [] S_OK 0 =
      PutSampleLoop streamingEnv 3 0 16 2
        { convertingStage 88200 44100 with
          m_pNextOutSample := some { size := 4096, actualDataLength := 8, timeStart := 0 }
          m_rtInSampleTime := 226 }
        [Event.requestBuffer 0, Event.srcProcess (some 1) 0 2 512] S_OK 8 :=
    PutSampleLoop_next streamingEnv 3 0 16 2 (convertingStage 88200 44100)
      { convertingStage 88200 44100 with
        m_pNextOutSample := some { size := 4096, actualDataLength := 8, timeStart := 0 }
        m_rtInSampleTime := 226 }
      [] [Event.requestBuffer 0, Event.srcProcess (some 1) 0 2 512]
      S_OK S_OK 0 (some 8) (by decide) streamingEnv_first_call
  have h2 : PutSampleLoop streamingEnv 3 0 16 2
        { convertingStage 88200 44100 with
          m_pNextOutSample := some { size := 4096, actualDataLength := 8, timeStart := 0 }
          m_rtInSampleTime := 226 }
        [Event.requestBuffer 0, Event.srcProcess (some 1) 0 2 512] S_OK 8 =
      PutSampleLoop streamingEnv 3 0 16 1
        { convertingStage 88200 44100 with
          m_pNextOutSample := some { size := 4096, actualDataLength := 8, timeStart := 0 }
          m_rtInSampleTime := 226 }
        [Event.requestBuffer 0, Event.srcProcess (some 1) 0 2 512,
          Event.srcProcess (some 1) 8 1 511] S_OK 8 :=
    PutSampleLoop_next streamingEnv 3 0 16 1
      { convertingStage 88200 44100 with
        m_pNextOutSample := some { size := 4096, actualDataLength := 8, timeStart := 0 }
        m_rtInSampleTime := 226 }
      { convertingStage 88200 44100 with
        m_pNextOutSample := some { size := 4096, actualDataLength := 8, timeStart := 0 }
        m_rtInSampleTime := 226 }
      [Event.requestBuffer 0, Event.srcProcess (some 1) 0 2 512]
      [Event.requestBuffer 0, Event.srcProcess (some 1) 0 2 512,
        Event.srcProcess (some 1) 8 1 511]
      S_OK S_OK 8 (some 0) (by decide) streamingEnv_second_call
  have h3 : PutSampleLoop streamingEnv 3 0 16 1
        { convertingStage 88200 44100 with
          m_pNextOutSample := some { size := 4096, actualDataLength := 8, timeStart := 0 }
          m_rtInSampleTime := 226 }
        [Event.requestBuffer 0, Event.srcProcess (some 1) 0 2 512,
          Event.srcProcess (some 1) 8 1 511] S_OK 8 =
      PutSampleLoop streamingEnv 3 0 16 0
        { convertingStage 88200 44100 with
          m_pNextOutSample := some { size := 4096, actualDataLength := 16, timeStart := 0 }
          m_rtInSampleTime := 452 }
        [Event.requestBuffer 0, Event.srcProcess (some 1) 0 2 512,
          Event.srcProcess (some 1) 8 1 511, Event.srcProcess (some 1) 8 1 511] S_OK 16 :=
    PutSampleLoop_next streamingEnv 3 0 16 0
      { convertingStage 88200 44100 with
        m_pNextOutSample := some { size := 4096, actualDataLength := 8, timeStart := 0 }
        m_rtInSampleTime := 226 }
      { convertingStage 88200 44100 with
        m_pNextOutSample := some { size := 4096, actualDataLength := 16, timeStart := 0 }
        m_rtInSampleTime := 452 }
      [Event.requestBuffer 0, Event.srcProcess (some 1) 0 2 512,
        Event.srcProcess (some 1) 8 1 511]
      [Event.requestBuffer 0, Event.srcProcess (some 1) 0 2 512,
        Event.srcProcess (some 1) 8 1 511, Event.srcProcess (some 1) 8 1 511]
      S_OK S_OK 8 (some 8) (by decide) streamingEnv_third_call
  have h4 : PutSampleLoop streamingEnv 3 0 16 0
        { convertingStage 88200 44100 with
          m_pNextOutSample := some { size := 4096, actualDataLength := 16, timeStart := 0 }
          m_rtInSampleTime := 452 }
        [Event.requestBuffer 0, Event.srcProcess (some 1) 0 2 512,
          Event.srcProcess (some 1) 8 1 511, Event.srcProcess (some 1) 8 1 511] S_OK 16 =
      .ok (S_OK,
        { convertingStage 88200 44100 with
          m_pNextOutSample := some { size := 4096, actualDataLength := 16, timeStart := 0 }
          m_rtInSampleTime := 452 },
        [Event.requestBuffer 0, Event.srcProcess (some 1) 0 2 512,
          Event.srcProcess (some 1) 8 1 511, Event.srcProcess (some 1) 8 1 511]) := rfl
  exact ⟨rfl, rfl, rfl, fun _ _ _ _ _ => le_refl _,
    ⟨_, h0.trans (h1.trans (h2.trans (h3.trans h4)))⟩, by decide, by decide⟩

end MPAudioRenderer
